import Mathlib

/-!
Verification development for the Alasco client library
(data_fetcher.py, data_transformer.py, utils.py, document_downloader.py).

The pandas/JSON layer is shallowly embedded: JSON documents are a small
inductive type, DataFrames are records of column names, an index, and rows
of cells, and each pandas operation used by the source is translated into
an executable Lean function on that representation.
-/

namespace Alasco

/-- A JSON value as handled by the library: `null` (also standing for
pandas `NaN`), strings (ids, names, numbers are opaque strings to the
library), arrays and objects (ordered key/value lists, keys unique). -/
inductive Json where
  | null : Json
  | str (s : String) : Json
  | arr (xs : List Json) : Json
  | obj (kvs : List (String × Json)) : Json

mutual

/-- Structural equality test on JSON values. -/
def Json.beq : Json → Json → Bool
  | .null, .null => true
  | .str a, .str b => a == b
  | .arr xs, .arr ys => Json.beqArr xs ys
  | .obj xs, .obj ys => Json.beqObj xs ys
  | _, _ => false

/-- Equality test on JSON arrays. -/
def Json.beqArr : List Json → List Json → Bool
  | [], [] => true
  | x :: xs, y :: ys => Json.beq x y && Json.beqArr xs ys
  | _, _ => false

/-- Equality test on JSON object entry lists. -/
def Json.beqObj : List (String × Json) → List (String × Json) → Bool
  | [], [] => true
  | (k, x) :: xs, (l, y) :: ys => k == l && Json.beq x y && Json.beqObj xs ys
  | _, _ => false

end

mutual

theorem Json.beq_iff : (a b : Json) → (Json.beq a b = true ↔ a = b)
  | .null, .null => by simp [Json.beq]
  | .null, .str _ => by simp [Json.beq]
  | .null, .arr _ => by simp [Json.beq]
  | .null, .obj _ => by simp [Json.beq]
  | .str _, .null => by simp [Json.beq]
  | .str a, .str b => by simp [Json.beq]
  | .str _, .arr _ => by simp [Json.beq]
  | .str _, .obj _ => by simp [Json.beq]
  | .arr _, .null => by simp [Json.beq]
  | .arr _, .str _ => by simp [Json.beq]
  | .arr xs, .arr ys => by
      have h := Json.beqArr_iff xs ys
      simp [Json.beq, h]
  | .arr _, .obj _ => by simp [Json.beq]
  | .obj _, .null => by simp [Json.beq]
  | .obj _, .str _ => by simp [Json.beq]
  | .obj _, .arr _ => by simp [Json.beq]
  | .obj xs, .obj ys => by
      have h := Json.beqObj_iff xs ys
      simp [Json.beq, h]

theorem Json.beqArr_iff : (xs ys : List Json) → (Json.beqArr xs ys = true ↔ xs = ys)
  | [], [] => by simp [Json.beqArr]
  | [], _ :: _ => by simp [Json.beqArr]
  | _ :: _, [] => by simp [Json.beqArr]
  | x :: xs, y :: ys => by
      have h1 := Json.beq_iff x y
      have h2 := Json.beqArr_iff xs ys
      simp [Json.beqArr, h1, h2]

theorem Json.beqObj_iff : (xs ys : List (String × Json)) → (Json.beqObj xs ys = true ↔ xs = ys)
  | [], [] => by simp [Json.beqObj]
  | [], _ :: _ => by simp [Json.beqObj]
  | _ :: _, [] => by simp [Json.beqObj]
  | (k, x) :: xs, (l, y) :: ys => by
      have h1 := Json.beq_iff x y
      have h2 := Json.beqObj_iff xs ys
      simp [Json.beqObj, h1, h2, Prod.ext_iff]

end

instance : DecidableEq Json :=
  fun a b => decidable_of_iff (Json.beq a b = true) (Json.beq_iff a b)

/-- A DataFrame cell; `Json.null` plays the role of pandas missing values. -/
abbrev Cell := Json

/-- Python exception values raised by the library.  In the spec's error
taxonomy, `keyError` (Python `KeyError`) is the `SchemaError` class
(missing `data` key / missing required column or key), `runtimeError`
(Python `RuntimeError`) is the `FetchError` class, and `valueError` /
`typeError` are the `ValueError`-class input errors. -/
inductive Err where
  | keyError (msg : String) : Err
  | valueError (msg : String) : Err
  | typeError (msg : String) : Err
  | runtimeError (msg : String) : Err
  deriving DecidableEq

/-- A pandas DataFrame: ordered column labels, row index labels, and rows
of cells (each row lists the cells in column order). -/
structure DF where
  cols : List String
  index : List Nat
  rows : List (List Cell)
  deriving DecidableEq

instance : Inhabited DF := ⟨⟨[], [], []⟩⟩

/-- `pd.DataFrame()`: the empty frame (zero rows, zero columns). -/
def DF.emptyDF : DF := ⟨[], [], []⟩

/-- pandas `DataFrame.empty`: true when any axis has length zero. -/
def DF.isEmpty (df : DF) : Bool := df.rows.isEmpty || df.cols.isEmpty

/-- Column selection `df[names]`: one column per requested name, cells
looked up at the first column with that label (the source guards each
selection with a column-presence check, so the labels are present). -/
def DF.select (df : DF) (names : List String) : DF :=
  { cols := names
    index := df.index
    rows := df.rows.map (fun r =>
      names.map (fun c => r.getD (df.cols.findIdx (fun c2 => c2 == c)) Json.null)) }

/-- `df.rename(columns=m)`: relabel columns through the mapping, leaving
labels that are not keys of the mapping unchanged. -/
def DF.renameCols (df : DF) (m : List (String × String)) : DF :=
  { cols := df.cols.map (fun c =>
      match m.find? (fun kv => kv.1 == c) with
      | some kv => kv.2
      | none => c)
    index := df.index
    rows := df.rows }

/-- `pd.merge(df1, df2, on=k)` (inner join): columns are the left columns
followed by the right columns minus the key; rows pair every left row with
every right row carrying an equal key cell (pandas matches missing keys to
missing keys), in left-major order; the index is a fresh range.  Suffixing
of overlapping non-key labels is not modelled: the frames the source merges
share only the key label. -/
def DF.merge (df1 df2 : DF) (key : String) : DF :=
  let i1 := df1.cols.findIdx (fun c => c == key)
  let i2 := df2.cols.findIdx (fun c => c == key)
  let rows := df1.rows.flatMap (fun r1 =>
    (df2.rows.filter (fun r2 => r2.getD i2 Json.null == r1.getD i1 Json.null)).map
      (fun r2 => r1 ++ r2.eraseIdx i2))
  { cols := df1.cols ++ df2.cols.eraseIdx i2
    index := List.range rows.length
    rows := rows }

/-- `df.drop_duplicates()`: keep the first occurrence of each full row
tuple, retaining the index labels of the kept rows. -/
def DF.dropDups (df : DF) : DF :=
  let pairs := (df.index.zip df.rows).foldl
    (fun acc p => if acc.any (fun q => q.2 == p.2) then acc else acc ++ [p]) []
  { cols := df.cols
    index := pairs.map (fun p => p.1)
    rows := pairs.map (fun p => p.2) }

/-- `df.reset_index(drop=True)`: a fresh contiguous 0-based index. -/
def DF.resetIndex (df : DF) : DF :=
  { cols := df.cols, index := List.range df.rows.length, rows := df.rows }

/-- `df.dropna(axis=1, how="all")`: drop the columns whose cells are
missing in every row, keeping the remaining columns in order. -/
def DF.dropAllNullCols (df : DF) : DF :=
  let keep := (List.range df.cols.length).filter
    (fun j => df.rows.any (fun r => r.getD j Json.null != Json.null))
  { cols := keep.map (fun j => df.cols.getD j "")
    index := df.index
    rows := df.rows.map (fun r => keep.map (fun j => r.getD j Json.null)) }

/-- The cells of the column labelled `c` (first occurrence), top to bottom. -/
def DF.colCells (df : DF) (c : String) : List Cell :=
  df.rows.map (fun r => r.getD (df.cols.findIdx (fun c2 => c2 == c)) Json.null)

/-- Column labels of `pd.concat(dfs)`: the union of the frames' labels in
order of first appearance. -/
def concatCols (dfs : List DF) : List String :=
  dfs.foldl (fun acc df => acc ++ df.cols.filter (fun c => !acc.contains c)) []

/-- Align one row of `df` to the concatenated label list: a cell per label,
taken from the row where `df` has the label and missing otherwise. -/
def DF.alignRow (df : DF) (allCols : List String) (r : List Cell) : List Cell :=
  allCols.map (fun c =>
    match df.cols.findIdx? (fun c2 => c2 == c) with
    | some i => r.getD i Json.null
    | none => Json.null)

/-- `pd.concat(dfs, ignore_index=True)`: union the columns in first-seen
order, stack the rows in frame order aligning each to the unioned columns,
and index the result with a fresh 0-based range. -/
def concatIgnoreIndex (dfs : List DF) : DF :=
  let cols := concatCols dfs
  let rows := dfs.flatMap (fun df => df.rows.map (df.alignRow cols))
  { cols := cols, index := List.range rows.length, rows := rows }

/-- First value bound to key `k` in a JSON object entry list (Python
`dict` lookup; real JSON objects bind each key once). -/
def lookupKV (kvs : List (String × Json)) (k : String) : Option Json :=
  (kvs.find? (fun kv => kv.1 == k)).map (fun kv => kv.2)

mutual

/-- Flatten one JSON record's entries for `pd.json_normalize`: nested
objects contribute their flattened entries under dot-joined path names,
any other value (scalar, null, array) is a single cell under its own
path. -/
def flattenKVs : List (String × Json) → List (String × Json)
  | [] => []
  | (k, v) :: rest => flattenEntry k v ++ flattenKVs rest

/-- Flatten a single key/value entry (see `flattenKVs`). -/
def flattenEntry (k : String) : Json → List (String × Json)
  | Json.obj kvs2 => (flattenKVs kvs2).map (fun p => (k ++ "." ++ p.1, p.2))
  | v => [(k, v)]

end

/-- The flattened path/value entries of one record. -/
def flattenRecord : Json → List (String × Json)
  | Json.obj kvs => flattenKVs kvs
  | _ => []

/-- The records normalized by `pd.json_normalize(data=d)`: the elements of
a JSON array, or the single record itself for a JSON object. -/
def normalizeRecords : Json → List Json
  | Json.arr rs => rs
  | d => [d]

/-- `pd.json_normalize(data=d)`: columns are the flattened paths in order
of first appearance across the records; each row holds the record's value
at the path, missing where the record lacks the path; fresh 0-based index. -/
def jsonNormalize (d : Json) : DF :=
  let recs := normalizeRecords d
  let cols := recs.foldl
    (fun acc r => acc ++ ((flattenRecord r).map (fun p => p.1)).filter
      (fun c => !acc.contains c)) []
  { cols := cols
    index := List.range recs.length
    rows := recs.map (fun r => cols.map (fun c =>
      match lookupKV (flattenRecord r) c with
      | some v => v
      | none => Json.null)) }

/-- Does `pat` occur at the head of the character list? -/
def startsWithChars : List Char → List Char → Bool
  | _, [] => true
  | [], _ :: _ => false
  | c :: cs, p :: ps => c == p && startsWithChars cs ps

/-- Does `pat` occur anywhere in the character list? -/
def hasSubChars : List Char → List Char → Bool
  | [], pat => startsWithChars [] pat
  | c :: cs, pat => startsWithChars (c :: cs) pat || hasSubChars cs pat

/-- The suffix after the last (leftmost-non-overlapping scan) occurrence
of `pat`, the whole list when `pat` does not occur: `s.split(pat)[-1]`.
The fuel argument only makes the recursion structural; any fuel at least
the list length gives the scan's answer. -/
def afterLastSubFuel : Nat → List Char → List Char → List Char
  | 0, s, _ => s
  | _ + 1, [], _ => []
  | fuel + 1, c :: cs, pat =>
      if pat.isEmpty then c :: cs
      else if startsWithChars (c :: cs) pat then
        afterLastSubFuel fuel (List.drop pat.length (c :: cs)) pat
      else if hasSubChars cs pat then afterLastSubFuel fuel cs pat
      else c :: cs

/-- See `afterLastSubFuel`. -/
def afterLastSub (s pat : List Char) : List Char :=
  afterLastSubFuel s.length s pat

/-- `name.split("attributes.")[-1]`: the part of the column name after the
last occurrence of `"attributes."`, the whole name when absent. -/
def stripAttr (s : String) : String :=
  String.mk (afterLastSub s.data ("attributes.".data))

/-- `DataTransformer.convert_JSON_to_DataFrame` (data_transformer.py
22-52): requires a top-level `data` key, else raises `KeyError` (the
spec's `SchemaError`) naming the missing element; otherwise normalizes
`JSONdata["data"]` and strips the `attributes.` prefix from column names.
The embedding covers dict pages, the only shape the pipeline feeds it. -/
def convert_JSON_to_DataFrame (JSONdata : Json) : Except Err DF :=
  match JSONdata with
  | Json.obj kvs =>
    match lookupKV kvs "data" with
    | none => Except.error (Err.keyError "'data' key not found in the JSON response")
    | some d =>
      let df := jsonNormalize d
      Except.ok { df with cols := df.cols.map stripAttr }
  | _ => Except.error (Err.typeError "JSONdata must be a dict")

/-- `DataTransformer.convert_list_JSON_to_DataFrame` (data_transformer.py
54-83): checks the input is a list of dicts, flattens each page, keeps the
pages whose frame is non-empty (pandas `df.empty`), drops each kept page's
all-null columns, then concatenates (`ignore_index=True`) when more than
one page remains, returns the single page unchanged when one remains, and
an empty frame when none remains. -/
def convert_list_JSON_to_DataFrame (listJSON : List Json) : Except Err DF :=
  if listJSON.all (fun j => match j with | Json.obj _ => true | _ => false) then
    match listJSON.mapM convert_JSON_to_DataFrame with
    | Except.error e => Except.error e
    | Except.ok dfs =>
      let dfs2 := (dfs.filter (fun df => !df.isEmpty)).map DF.dropAllNullCols
      if dfs2.length > 1 then Except.ok (concatIgnoreIndex dfs2)
      else if dfs2.length = 1 then Except.ok (dfs2.headD DF.emptyDF)
      else Except.ok DF.emptyDF
  else Except.error (Err.typeError "listJSON must be a list of dictionaries")

/-- A filter value: a scalar, or a list of scalars (Python list/tuple). -/
inductive FVal where
  | s (v : String) : FVal
  | list (vs : List String) : FVal
  deriving DecidableEq

/-- A filter triple `(attribute, operation, value)`. -/
abbrev Filt := String × String × FVal

/-- Serialization of a filter value: lists are comma-joined
(`filter = ",".join(filter)` in `get_json`). -/
def FVal.serialize : FVal → String
  | FVal.s v => v
  | FVal.list vs => String.intercalate "," vs

/-- The URL actually requested: `get_json` appends
`?filter[attribute.operation]=value` when a filter is given. -/
def applyFilter (url : String) : Option Filt → String
  | none => url
  | some (a, op, v) =>
      url ++ "?filter[" ++ a ++ "." ++ op ++ "]=" ++ FVal.serialize v

/-- `response_json.get("links", {}).get("next")` followed by the
`is not None` test: `ok none` means no further page (absent or null),
`ok (some u)` the next page URL, `error` the cases where the Python
expression raises (page or `links` value not a dict, non-string URL),
which the `except` clause turns into `RuntimeError`. -/
def linksNextE : Json → Except String (Option String)
  | Json.obj kvs =>
    match lookupKV kvs "links" with
    | none => Except.ok none
    | some (Json.obj lks) =>
      match lookupKV lks "next" with
      | none => Except.ok none
      | some Json.null => Except.ok none
      | some (Json.str u) => Except.ok (some u)
      | some _ => Except.error "next link is not a string"
    | some _ => Except.error "links value is not a dict"
  | _ => Except.error "page is not a dict"

/-- `DataFetcher.get_json` (data_fetcher.py 45-104): apply the filter to
the URL, perform the GET (`server` maps a URL to its JSON body, `none`
standing for a transport/HTTP failure, which the code converts to
`RuntimeError`), then follow a present non-null `links.next` URL
recursively with no filter, prepending the current page.  The result also
carries the list of URLs requested, in request order.  `fuel` bounds the
recursion depth, an artifact of the embedding; it is irrelevant whenever
it exceeds the page-chain length. -/
def get_json (server : String → Option Json) :
    Nat → String → Option Filt → Except Err (List Json × List String)
  | 0, _, _ => Except.error (Err.runtimeError "recursion fuel exhausted")
  | fuel + 1, url, filters =>
    let u := applyFilter url filters
    match server u with
    | none => Except.error (Err.runtimeError ("HTTP error occurred: " ++ u))
    | some page =>
      match linksNextE page with
      | Except.error e => Except.error (Err.runtimeError ("Other error occurred: " ++ e))
      | Except.ok none => Except.ok ([page], [u])
      | Except.ok (some nextUrl) =>
        match get_json server fuel nextUrl none with
        | Except.error e => Except.error e
        | Except.ok (ps, us) => Except.ok (page :: ps, u :: us)

/-- `Utils.split_list` (utils.py 35-51): `ValueError` when
`chunk_size <= 0`, otherwise `⌈len/chunk_size⌉` consecutive slices
`input_list[i*chunk_size:(i+1)*chunk_size]`. -/
def split_list (input_list : List String) (chunk_size : Int) : Except Err (List (List String)) :=
  if chunk_size ≤ 0 then Except.error (Err.valueError "chunk_size must be greater than 0")
  else
    let c := chunk_size.toNat
    Except.ok ((List.range ((input_list.length + c - 1) / c)).map
      (fun i => (input_list.drop (i * c)).take c))

/-- `DataFetcher.get_df` (data_fetcher.py 106-147): when a filter with a
list value longer than `chunk_size` is given, split the values into
chunks, perform one fetch-and-flatten (`F`) per chunk and concatenate
with `ignore_index=True`; otherwise delegate to a single fetch-and-flatten
with the original filter.  The first component counts fetch-and-flatten
calls; a `split_list` `ValueError` is raised before any fetch. -/
def get_df (F : Option Filt → DF) (filters : Option Filt) (chunk_size : Int) :
    Nat × Except Err DF :=
  match filters with
  | some (attrName, operation, FVal.list filter_values) =>
    if (filter_values.length : Int) > chunk_size then
      match split_list filter_values chunk_size with
      | Except.error e => (0, Except.error e)
      | Except.ok filter_chunks =>
        (filter_chunks.length, Except.ok (concatIgnoreIndex (filter_chunks.map
          (fun chunk => F (some (attrName, operation, FVal.list chunk))))))
    else (1, Except.ok (F filters))
  | _ => (1, Except.ok (F filters))

/-- `DataFetcher.get_projects` (data_fetcher.py 150-178): filter by name
(checked first), else by property ids, else fetch all. -/
def get_projects (F : Option Filt → DF) (property_ids : Option (List String))
    (project_name : Option String) : Nat × Except Err DF :=
  let filters : Option Filt :=
    match project_name with
    | some n => some ("name", "contains", FVal.s n)
    | none =>
      match property_ids with
      | some ids => some ("property", "in", FVal.list ids)
      | none => none
  get_df F filters 50

/-- `DataFetcher.get_properties` (data_fetcher.py 180-208): filter by ids
(checked first), else by name, else fetch all. -/
def get_properties (F : Option Filt → DF) (property_ids : Option (List String))
    (property_name : Option String) : Nat × Except Err DF :=
  let filters : Option Filt :=
    match property_ids with
    | some ids => some ("id", "in", FVal.list ids)
    | none =>
      match property_name with
      | some n => some ("name", "contains", FVal.s n)
      | none => none
  get_df F filters 50

/-- `DataFetcher.get_contractors` (data_fetcher.py 224-257): filter by ids
(with the source's extra, discarded `get_df` call when more than 50 ids
are given), else by name, else fetch all. -/
def get_contractors (F : Option Filt → DF) (contractor_ids : Option (List String))
    (contractor_name : Option String) : Nat × Except Err DF :=
  match contractor_ids with
  | some ids =>
    let filters : Option Filt := some ("id", "in", FVal.list ids)
    if ids.length > 50 then
      match get_df F filters 50 with
      | (n1, Except.error e) => (n1, Except.error e)
      | (n1, Except.ok _) =>
        match get_df F filters 50 with
        | (n2, r) => (n1 + n2, r)
    else get_df F filters 50
  | none =>
    match contractor_name with
    | some n => get_df F (some ("name", "contains", FVal.s n)) 50
    | none => get_df F none 50

/-- `DataFetcher.get_contracts` (data_fetcher.py 259-317): `ValueError`
when more than one optional parameter is given; otherwise the first
non-null parameter in declaration order selects the filter, and with none
given all contracts are fetched. -/
def get_contracts (F : Option Filt → DF) (contract_number : Option String)
    (cost_center : Option String) (contract_ids : Option (List String))
    (contractor_ids : Option (List String)) (contract_unit_ids : Option (List String)) :
    Nat × Except Err DF :=
  let given := [contract_number.isSome, cost_center.isSome, contract_ids.isSome,
    contractor_ids.isSome, contract_unit_ids.isSome]
  if 1 < (given.filter (fun b => b)).length then
    (0, Except.error (Err.valueError "Only one of the optional parameters can be not None."))
  else
    let filters : Option Filt :=
      match contract_number with
      | some n => some ("contract_number", "exact", FVal.s n)
      | none =>
        match cost_center with
        | some cc => some ("cost_center", "exact", FVal.s cc)
        | none =>
          match contract_ids with
          | some ids => some ("id", "in", FVal.list ids)
          | none =>
            match contractor_ids with
            | some ids => some ("contractor", "in", FVal.list ids)
            | none =>
              match contract_unit_ids with
              | some ids => some ("contract_unit", "in", FVal.list ids)
              | none => none
    get_df F filters 50

/-- `DataFetcher.get_contract_units` (data_fetcher.py 341-368): filter by
contract unit ids, else by project ids, else fetch all. -/
def get_contract_units (F : Option Filt → DF) (contract_unit_ids : Option (List String))
    (project_ids : Option (List String)) : Nat × Except Err DF :=
  let filters : Option Filt :=
    match contract_unit_ids with
    | some ids => some ("id", "in", FVal.list ids)
    | none =>
      match project_ids with
      | some ids => some ("project", "in", FVal.list ids)
      | none => none
  get_df F filters 50

/-- `DataFetcher.get_invoices` (data_fetcher.py 370-397): filter by
invoice ids, else by contract ids, else fetch all. -/
def get_invoices (F : Option Filt → DF) (invoice_ids : Option (List String))
    (contract_ids : Option (List String)) : Nat × Except Err DF :=
  let filters : Option Filt :=
    match invoice_ids with
    | some ids => some ("id", "in", FVal.list ids)
    | none =>
      match contract_ids with
      | some ids => some ("contract", "in", FVal.list ids)
      | none => none
  get_df F filters 50

/-- `DataFetcher.get_change_orders` (data_fetcher.py 399-426): filter by
change order ids, else by contract ids; with neither given it raises
`ValueError` before any fetch (count 0). -/
def get_change_orders (F : Option Filt → DF) (change_order_ids : Option (List String))
    (contract_ids : Option (List String)) : Nat × Except Err DF :=
  match change_order_ids with
  | some ids => get_df F (some ("id", "in", FVal.list ids)) 50
  | none =>
    match contract_ids with
    | some ids => get_df F (some ("contract", "in", FVal.list ids)) 50
    | none =>
      (0, Except.error (Err.valueError
        "Please provide either a list of change order ids or a list of contract ids."))

/-- First DataFrame bound to key `k` in the input dictionary
(`dfs[k]` / `k in dfs`). -/
def lookupDf (dfs : List (String × DF)) (k : String) : Option DF :=
  (dfs.find? (fun kv => kv.1 == k)).map (fun kv => kv.2)

/-- The required keys of `consolidate_core_DataFrames`, in check order. -/
def requiredKeysCore : List String :=
  ["properties", "projects", "contract_units", "contracts", "contractors"]

/-- `DataTransformer.consolidate_core_DataFrames` (data_transformer.py
86-170): check the five required keys (first missing one is reported),
copy each frame, then per table check required columns, select, rename,
and inner-merge onto the accumulating core: projects on `property_id`,
contract units on `project_id`, contracts on `contract_unit_id`,
contractors on `contractor_id`; finally drop duplicate rows and reset the
index. -/
def consolidate_core_DataFrames (dfs : List (String × DF)) : Except Err DF :=
  match lookupDf dfs "properties" with
  | none => Except.error (Err.keyError "'properties' key not found in the input dictionary")
  | some properties_df =>
  match lookupDf dfs "projects" with
  | none => Except.error (Err.keyError "'projects' key not found in the input dictionary")
  | some projects_df =>
  match lookupDf dfs "contract_units" with
  | none => Except.error (Err.keyError "'contract_units' key not found in the input dictionary")
  | some contract_units_df =>
  match lookupDf dfs "contracts" with
  | none => Except.error (Err.keyError "'contracts' key not found in the input dictionary")
  | some contracts_df =>
  match lookupDf dfs "contractors" with
  | none => Except.error (Err.keyError "'contractors' key not found in the input dictionary")
  | some contractors_df =>
  if !(["id", "name"].all (fun c => properties_df.cols.contains c)) then
    Except.error (Err.keyError "Required columns missing in 'properties' DataFrame")
  else
  let df_core := (properties_df.select ["id", "name"]).renameCols
    [("id", "property_id"), ("name", "property_name")]
  if !(["id", "name", "relationships.property.data.id"].all
      (fun c => projects_df.cols.contains c)) then
    Except.error (Err.keyError "Required columns missing in 'projects' DataFrame")
  else
  let projects2 := (projects_df.select ["id", "name", "relationships.property.data.id"]).renameCols
    [("id", "project_id"), ("name", "project_name"),
     ("relationships.property.data.id", "property_id")]
  let df_core := df_core.merge projects2 "property_id"
  if !(["id", "name", "relationships.project.data.id"].all
      (fun c => contract_units_df.cols.contains c)) then
    Except.error (Err.keyError "Required columns missing in 'contract_units' DataFrame")
  else
  let cu2 := (contract_units_df.select ["id", "name", "relationships.project.data.id"]).renameCols
    [("id", "contract_unit_id"), ("name", "contract_unit_name"),
     ("relationships.project.data.id", "project_id")]
  let df_core := df_core.merge cu2 "project_id"
  if !(["id", "name", "contract_number", "contract_unit", "contractor"].all
      (fun c => contracts_df.cols.contains c)) then
    Except.error (Err.keyError "Required columns missing in 'contracts' DataFrame")
  else
  let contracts2 := (contracts_df.select
    ["id", "name", "contract_number", "contract_unit", "contractor"]).renameCols
    [("id", "contract_id"), ("name", "contract_name"),
     ("contract_unit", "contract_unit_id"), ("contractor", "contractor_id")]
  let df_core := df_core.merge contracts2 "contract_unit_id"
  if !(["id", "name"].all (fun c => contractors_df.cols.contains c)) then
    Except.error (Err.keyError "Required columns missing in 'contractors' DataFrame")
  else
  let contractors2 := (contractors_df.select ["id", "name"]).renameCols
    [("id", "contractor_id"), ("name", "contractor_name")]
  let df_core := df_core.merge contractors2 "contractor_id"
  Except.ok (df_core.dropDups.resetIndex)

/-- Python `str(...)` of a list of strings, as interpolated by the
f-strings reporting missing columns. -/
def pyStrList (xs : List String) : String :=
  "[" ++ String.intercalate ", " (xs.map (fun s => "'" ++ s ++ "'")) ++ "]"

/-- `DataTransformer.consolidate_invoices_DataFrame` (data_transformer.py
172-198): check the invoice table's required columns (reporting the
missing ones), select and rename them, inner-merge onto the core by
`contract_id`, drop duplicates, reset the index. -/
def consolidate_invoices_DataFrame (df_core df_invoices : DF) : Except Err DF :=
  let required_columns := ["id", "contract", "external_identifier"]
  if !(required_columns.all (fun c => df_invoices.cols.contains c)) then
    let missing_cols := required_columns.filter (fun c => !df_invoices.cols.contains c)
    Except.error (Err.keyError
      ("Required columns missing in 'df_invoices' DataFrame: " ++ pyStrList missing_cols))
  else
    let inv2 := (df_invoices.select required_columns).renameCols
      [("id", "invoice_id"), ("contract", "contract_id"),
       ("external_identifier", "invoice_number")]
    Except.ok ((df_core.merge inv2 "contract_id").dropDups.resetIndex)

/-- `DataTransformer.consolidate_change_orders_DataFrame`
(data_transformer.py 200-231): check the change order table's required
columns (reporting the missing ones), select and rename them, inner-merge
onto the core by `contract_id`, drop duplicates, reset the index. -/
def consolidate_change_orders_DataFrame (df_core df_change_orders : DF) : Except Err DF :=
  let required_columns := ["id", "contract", "name", "identifier"]
  if !(required_columns.all (fun c => df_change_orders.cols.contains c)) then
    let missing_cols := required_columns.filter (fun c => !df_change_orders.cols.contains c)
    Except.error (Err.keyError
      ("Required columns missing in 'df_change_orders' DataFrame: " ++ pyStrList missing_cols))
  else
    let co2 := (df_change_orders.select required_columns).renameCols
      [("id", "change_order_id"), ("contract", "contract_id"),
       ("name", "change_order_name"), ("identifier", "change_order_identifier")]
    Except.ok ((df_core.merge co2 "contract_id").dropDups.resetIndex)

/-- The character class kept by `re.sub(r'[^a-zA-Z0-9_\-() ]', '', ...)`:
ASCII letters, digits, underscore, hyphen, parentheses and space. -/
def keepChar (c : Char) : Bool :=
  ('a' ≤ c && c ≤ 'z') || ('A' ≤ c && c ≤ 'Z') || ('0' ≤ c && c ≤ '9') ||
  c == '_' || c == '-' || c == '(' || c == ')' || c == ' '

/-- `re.sub(r'[^a-zA-Z0-9_\-() ]', '', s)`: delete every character outside
the kept class. -/
def cleanStr (s : String) : String :=
  String.mk (s.data.filter keepChar)

/-- `DocumentDownloader._name_contract` (document_downloader.py 100-132):
`{cleaned contractor_name}_{cleaned contract_number}_{document_type}.pdf`,
with `document_type` defaulting to `"CONTRACT"`.  A row is read as a total
map from column label to string value. -/
def nameContract (row : String → String) (document_type : Option String) : String :=
  let dt := document_type.getD "CONTRACT"
  let contractor_name := cleanStr (row "contractor_name")
  let contract_number := cleanStr (row "contract_number")
  contractor_name ++ "_" ++ contract_number ++ "_" ++ dt ++ ".pdf"

/-- `DocumentDownloader._name_invoice` (document_downloader.py 195-229):
`{cleaned contractor_name}_{cleaned contract_number}_{cleaned
invoice_number}_{document_type}.pdf`, `document_type` defaulting to
`"INVOICE"`. -/
def nameInvoice (row : String → String) (document_type : Option String) : String :=
  let dt := document_type.getD "INVOICE"
  let contract_number := cleanStr (row "contract_number")
  let contractor_name := cleanStr (row "contractor_name")
  let invoice_number := cleanStr (row "invoice_number")
  contractor_name ++ "_" ++ contract_number ++ "_" ++ invoice_number ++ "_" ++ dt ++ ".pdf"

/-- `DocumentDownloader._name_change_order` (document_downloader.py
288-323): `{cleaned contractor_name}_{cleaned contract_number}_
{document_type}_{cleaned change_order_identifier}.pdf`, `document_type`
defaulting to `"CHANGE-ORDER"`. -/
def nameChangeOrder (row : String → String) (document_type : Option String) : String :=
  let dt := document_type.getD "CHANGE-ORDER"
  let contractor_name := cleanStr (row "contractor_name")
  let contract_number := cleanStr (row "contract_number")
  let change_order_identifier := cleanStr (row "change_order_identifier")
  contractor_name ++ "_" ++ contract_number ++ "_" ++ dt ++ "_" ++
    change_order_identifier ++ ".pdf"

/-- A row of the remote collection behind one resource endpoint: the value
of the filtered attribute, and the row's cells as flattened by the
pipeline. -/
structure DbRow where
  key : String
  cells : List Cell
  deriving DecidableEq

/-- Modelled from the spec: the remote API's filter semantics, which is
not part of this repository (the server is an external collaborator).
Per spec §4.1/§4.2, a fetch with filter `filter[attr.in]=v1,v2,...`
returns the rows whose attribute value is among the listed values, a
scalar filter the rows with that exact value, and no filter the whole
collection; the fetched pages flatten to one table over fixed columns. -/
def modelFetchFlatten (cols : List String) (db : List DbRow) (f : Option Filt) : DF :=
  let sel : List DbRow := match f with
    | some (_, _, FVal.list vs) => db.filter (fun r => vs.contains r.key)
    | some (_, _, FVal.s v) => db.filter (fun r => r.key == v)
    | none => db
  { cols := cols, index := List.range sel.length, rows := sel.map (fun r => r.cells) }

/-- Modelled from the spec: the multi-page flatten pipeline as claim C3
words it, to be compared with the source's
`convert_list_JSON_to_DataFrame`.  It differs in one place: it discards
exactly the pages producing zero ROWS, where the source discards the pages
whose frame is pandas-`empty` (zero rows OR zero columns). -/
def specConvertListByRows (listJSON : List Json) : Except Err DF :=
  match listJSON.mapM convert_JSON_to_DataFrame with
  | Except.error e => Except.error e
  | Except.ok dfs =>
    let dfs2 := (dfs.filter (fun df => !df.rows.isEmpty)).map DF.dropAllNullCols
    Except.ok (concatIgnoreIndex dfs2)

/-- A heap of pandas DataFrame objects, for stating what the consolidation
functions do to their INPUT objects (Python objects are mutable; the
consolidations copy before transforming and use no in-place operation, so
they must leave every input object intact and return a fresh object). -/
structure Heap where
  cells : List DF

/-- Allocate a fresh DataFrame object, returning its reference. -/
def Heap.alloc (h : Heap) (df : DF) : Heap × Nat :=
  (⟨h.cells ++ [df]⟩, h.cells.length)

/-- Dereference a DataFrame object. -/
def Heap.read (h : Heap) (r : Nat) : DF :=
  h.cells.getD r default

/-- Overwrite a DataFrame object in place (what a mutating pandas call
would do; the consolidation functions never use it). -/
def Heap.write (h : Heap) (r : Nat) (df : DF) : Heap :=
  ⟨h.cells.set r df⟩

/-- Reference to the DataFrame bound to `k` in the input dictionary. -/
def lookupRef (dfs : List (String × Nat)) (k : String) : Option Nat :=
  (dfs.find? (fun kv => kv.1 == k)).map (fun kv => kv.2)

/-- `consolidate_core_DataFrames` replayed on the object heap, statement
by statement: the five `.copy()` calls and every non-in-place pandas
operation allocate a fresh object; nothing writes to an existing one. -/
def consolidate_core_heap (h : Heap) (dfs : List (String × Nat)) : Heap × Except Err Nat :=
  match lookupRef dfs "properties" with
  | none => (h, Except.error (Err.keyError "'properties' key not found in the input dictionary"))
  | some rProp =>
  match lookupRef dfs "projects" with
  | none => (h, Except.error (Err.keyError "'projects' key not found in the input dictionary"))
  | some rProj =>
  match lookupRef dfs "contract_units" with
  | none => (h, Except.error (Err.keyError "'contract_units' key not found in the input dictionary"))
  | some rCU =>
  match lookupRef dfs "contracts" with
  | none => (h, Except.error (Err.keyError "'contracts' key not found in the input dictionary"))
  | some rC =>
  match lookupRef dfs "contractors" with
  | none => (h, Except.error (Err.keyError "'contractors' key not found in the input dictionary"))
  | some rCtr =>
  let (h, pProp) := h.alloc (h.read rProp)
  let (h, pProj) := h.alloc (h.read rProj)
  let (h, pCU) := h.alloc (h.read rCU)
  let (h, pC) := h.alloc (h.read rC)
  let (h, pCtr) := h.alloc (h.read rCtr)
  if !(["id", "name"].all (fun c => (h.read pProp).cols.contains c)) then
    (h, Except.error (Err.keyError "Required columns missing in 'properties' DataFrame"))
  else
  let (h, s1) := h.alloc ((h.read pProp).select ["id", "name"])
  let (h, core1) := h.alloc ((h.read s1).renameCols
    [("id", "property_id"), ("name", "property_name")])
  if !(["id", "name", "relationships.property.data.id"].all
      (fun c => (h.read pProj).cols.contains c)) then
    (h, Except.error (Err.keyError "Required columns missing in 'projects' DataFrame"))
  else
  let (h, s2) := h.alloc ((h.read pProj).select ["id", "name", "relationships.property.data.id"])
  let (h, s2r) := h.alloc ((h.read s2).renameCols
    [("id", "project_id"), ("name", "project_name"),
     ("relationships.property.data.id", "property_id")])
  let (h, core2) := h.alloc ((h.read core1).merge (h.read s2r) "property_id")
  if !(["id", "name", "relationships.project.data.id"].all
      (fun c => (h.read pCU).cols.contains c)) then
    (h, Except.error (Err.keyError "Required columns missing in 'contract_units' DataFrame"))
  else
  let (h, s3) := h.alloc ((h.read pCU).select ["id", "name", "relationships.project.data.id"])
  let (h, s3r) := h.alloc ((h.read s3).renameCols
    [("id", "contract_unit_id"), ("name", "contract_unit_name"),
     ("relationships.project.data.id", "project_id")])
  let (h, core3) := h.alloc ((h.read core2).merge (h.read s3r) "project_id")
  if !(["id", "name", "contract_number", "contract_unit", "contractor"].all
      (fun c => (h.read pC).cols.contains c)) then
    (h, Except.error (Err.keyError "Required columns missing in 'contracts' DataFrame"))
  else
  let (h, s4) := h.alloc ((h.read pC).select
    ["id", "name", "contract_number", "contract_unit", "contractor"])
  let (h, s4r) := h.alloc ((h.read s4).renameCols
    [("id", "contract_id"), ("name", "contract_name"),
     ("contract_unit", "contract_unit_id"), ("contractor", "contractor_id")])
  let (h, core4) := h.alloc ((h.read core3).merge (h.read s4r) "contract_unit_id")
  if !(["id", "name"].all (fun c => (h.read pCtr).cols.contains c)) then
    (h, Except.error (Err.keyError "Required columns missing in 'contractors' DataFrame"))
  else
  let (h, s5) := h.alloc ((h.read pCtr).select ["id", "name"])
  let (h, s5r) := h.alloc ((h.read s5).renameCols
    [("id", "contractor_id"), ("name", "contractor_name")])
  let (h, core5) := h.alloc ((h.read core4).merge (h.read s5r) "contractor_id")
  let (h, dd) := h.alloc ((h.read core5).dropDups)
  let (h, res) := h.alloc ((h.read dd).resetIndex)
  (h, Except.ok res)

/-- `consolidate_invoices_DataFrame` replayed on the object heap. -/
def consolidate_invoices_heap (h : Heap) (rCore rInv : Nat) : Heap × Except Err Nat :=
  let required_columns := ["id", "contract", "external_identifier"]
  if !(required_columns.all (fun c => (h.read rInv).cols.contains c)) then
    let missing_cols := required_columns.filter (fun c => !(h.read rInv).cols.contains c)
    (h, Except.error (Err.keyError
      ("Required columns missing in 'df_invoices' DataFrame: " ++ pyStrList missing_cols)))
  else
  let (h, s1) := h.alloc ((h.read rInv).select required_columns)
  let (h, cp) := h.alloc (h.read s1)
  let (h, s1r) := h.alloc ((h.read cp).renameCols
    [("id", "invoice_id"), ("contract", "contract_id"),
     ("external_identifier", "invoice_number")])
  let (h, m) := h.alloc ((h.read rCore).merge (h.read s1r) "contract_id")
  let (h, dd) := h.alloc ((h.read m).dropDups)
  let (h, res) := h.alloc ((h.read dd).resetIndex)
  (h, Except.ok res)

/-- `consolidate_change_orders_DataFrame` replayed on the object heap. -/
def consolidate_change_orders_heap (h : Heap) (rCore rCO : Nat) : Heap × Except Err Nat :=
  let required_columns := ["id", "contract", "name", "identifier"]
  if !(required_columns.all (fun c => (h.read rCO).cols.contains c)) then
    let missing_cols := required_columns.filter (fun c => !(h.read rCO).cols.contains c)
    (h, Except.error (Err.keyError
      ("Required columns missing in 'df_change_orders' DataFrame: " ++ pyStrList missing_cols)))
  else
  let (h, s1) := h.alloc ((h.read rCO).select required_columns)
  let (h, cp) := h.alloc (h.read s1)
  let (h, s1r) := h.alloc ((h.read cp).renameCols
    [("id", "change_order_id"), ("contract", "contract_id"),
     ("name", "change_order_name"), ("identifier", "change_order_identifier")])
  let (h, m) := h.alloc ((h.read rCore).merge (h.read s1r) "contract_id")
  let (h, dd) := h.alloc ((h.read m).dropDups)
  let (h, res) := h.alloc ((h.read dd).resetIndex)
  (h, Except.ok res)

/-- The consolidated row used in the documentation example:
`contractor_name = "ACME Corp."`, `contract_number = "123/456"`. -/
def exampleRow : String → String := fun c =>
  if c == "contractor_name" then "ACME Corp."
  else if c == "contract_number" then "123/456"
  else ""

/-- C10 (claim): `get_change_orders` called with both `change_order_ids`
and `contract_ids` equal to `None` raises `ValueError` before issuing any
request (request count 0), while the other entity fetchers given no filter
argument issue a single unfiltered fetch of the full collection. -/
theorem get_change_orders_requires_filter (F : Option Filt → DF) :
    get_change_orders F none none =
      (0, Except.error (Err.valueError
        "Please provide either a list of change order ids or a list of contract ids.")) ∧
    get_projects F none none = (1, Except.ok (F none)) ∧
    get_properties F none none = (1, Except.ok (F none)) ∧
    get_contractors F none none = (1, Except.ok (F none)) ∧
    get_contracts F none none none none none = (1, Except.ok (F none)) ∧
    get_contract_units F none none = (1, Except.ok (F none)) ∧
    get_invoices F none none = (1, Except.ok (F none)) := by
  refine ⟨rfl, rfl, rfl, rfl, ?_, rfl, rfl⟩
  simp [get_contracts, get_df]

/-- C7 (counterexample): with `chunk_size = 0` and no filter, `get_df`
does not raise `ValueError`; it delegates to a single fetch-and-flatten.
This refutes "fails with ValueError ... regardless of whether a filter is
supplied". -/
theorem get_df_chunk_size_zero_no_error :
    get_df (fun _ => DF.emptyDF) none 0 = (1, Except.ok DF.emptyDF) := rfl

/-- C7 (amended): with `chunk_size <= 0`, `get_df` raises
`ValueError` exactly when the supplied filter value is a list/tuple longer
than `chunk_size` (so that the chunking branch calls `split_list`); with
no filter, a scalar filter value, or a list not longer than `chunk_size`,
it delegates to a single fetch-and-flatten without error. -/
theorem get_df_nonpositive_chunk_size (F : Option Filt → DF) (filters : Option Filt)
    (chunk_size : Int) (hC : chunk_size ≤ 0) :
    get_df F filters chunk_size =
      match filters with
      | some (_, _, FVal.list vs) =>
        if chunk_size < (vs.length : Int) then
          (0, Except.error (Err.valueError "chunk_size must be greater than 0"))
        else (1, Except.ok (F filters))
      | _ => (1, Except.ok (F filters)) := by
  match filters with
  | none => rfl
  | some (a, op, FVal.s v) => rfl
  | some (a, op, FVal.list vs) =>
    by_cases h : chunk_size < (vs.length : Int)
    · simp [get_df, split_list, h, hC]
    · simp [get_df, h]

/-- C7 (amended, witness): the amended statement evaluated at
`chunk_size = 0` with a one-element filter-value list. -/
theorem get_df_nonpositive_chunk_size_witness :
    get_df (fun _ => DF.emptyDF) (some ("id", "in", FVal.list ["a"])) 0 =
      (0, Except.error (Err.valueError "chunk_size must be greater than 0")) := by
  have h := get_df_nonpositive_chunk_size (fun _ => DF.emptyDF)
    (some ("id", "in", FVal.list ["a"])) 0 (by decide)
  simpa using h

/-- C5 (claim): a raw page lacking a top-level `data` key makes
`convert_JSON_to_DataFrame` fail fast with the `KeyError` (the spec's
`SchemaError`) naming the missing `data` element, returning no table. -/
theorem convert_missing_data_key (kvs : List (String × Json))
    (h : lookupKV kvs "data" = none) :
    convert_JSON_to_DataFrame (Json.obj kvs) =
      Except.error (Err.keyError "'data' key not found in the JSON response") := by
  simp [convert_JSON_to_DataFrame, h]

/-- C5 (witness): the empty page `{}` of the spec's test vector. -/
theorem convert_missing_data_key_witness :
    convert_JSON_to_DataFrame (Json.obj []) =
      Except.error (Err.keyError "'data' key not found in the JSON response") :=
  convert_missing_data_key [] rfl

set_option maxHeartbeats 1600000 in
theorem consolidate_core_heap_frame (h : Heap) (dfs : List (String × Nat)) (r : Nat)
    (hr : r < h.cells.length) :
    (consolidate_core_heap h dfs).1.read r = h.read r ∧
    ∀ i, (consolidate_core_heap h dfs).2 = Except.ok i → h.cells.length ≤ i := by
  unfold consolidate_core_heap
  simp only [Heap.alloc]
  repeat' split
  all_goals constructor
  all_goals first
    | (intro i hi
       first
         | exact Except.noConfusion hi
         | (rw [← Except.ok.inj hi]
            simp only [List.length_append, List.length_cons, List.length_nil]
            omega))
    | (simp only [Heap.read, List.append_assoc]
       rw [List.getD_append _ _ _ _ hr])
    | rfl

set_option maxHeartbeats 1600000 in
theorem consolidate_invoices_heap_frame (h : Heap) (rCore rInv : Nat) (r : Nat)
    (hr : r < h.cells.length) :
    (consolidate_invoices_heap h rCore rInv).1.read r = h.read r ∧
    ∀ i, (consolidate_invoices_heap h rCore rInv).2 = Except.ok i → h.cells.length ≤ i := by
  unfold consolidate_invoices_heap
  simp only [Heap.alloc]
  repeat' split
  all_goals constructor
  all_goals first
    | (intro i hi
       first
         | exact Except.noConfusion hi
         | (rw [← Except.ok.inj hi]
            simp only [List.length_append, List.length_cons, List.length_nil]
            omega))
    | (simp only [Heap.read, List.append_assoc]
       rw [List.getD_append _ _ _ _ hr])
    | rfl

set_option maxHeartbeats 1600000 in
theorem consolidate_change_orders_heap_frame (h : Heap) (rCore rCO : Nat) (r : Nat)
    (hr : r < h.cells.length) :
    (consolidate_change_orders_heap h rCore rCO).1.read r = h.read r ∧
    ∀ i, (consolidate_change_orders_heap h rCore rCO).2 = Except.ok i → h.cells.length ≤ i := by
  unfold consolidate_change_orders_heap
  simp only [Heap.alloc]
  repeat' split
  all_goals constructor
  all_goals first
    | (intro i hi
       first
         | exact Except.noConfusion hi
         | (rw [← Except.ok.inj hi]
            simp only [List.length_append, List.length_cons, List.length_nil]
            omega))
    | (simp only [Heap.read, List.append_assoc]
       rw [List.getD_append _ _ _ _ hr])
    | rfl

theorem mapM_ok_of_forall (f : Json → Except Err DF) :
    ∀ (l : List Json), (∀ a ∈ l, ∃ b, f a = Except.ok b) →
      ∃ bs, l.mapM f = Except.ok bs ∧ ∀ b ∈ bs, ∃ a ∈ l, f a = Except.ok b
  | [], _ => ⟨[], rfl, by simp⟩
  | a :: t, h => by
      obtain ⟨b, hb⟩ := h a (by simp)
      obtain ⟨bs, hbs, hmem⟩ := mapM_ok_of_forall f t (fun x hx => h x (by simp [hx]))
      refine ⟨b :: bs, ?_, ?_⟩
      · simp only [List.mapM_cons, hb, hbs]
        rfl
      · intro c hc
        rcases List.mem_cons.mp hc with rfl | hc'
        · exact ⟨a, by simp, hb⟩
        · obtain ⟨x, hx, hfx⟩ := hmem c hc'
          exact ⟨x, by simp [hx], hfx⟩

theorem findIdx?_nodup_self : ∀ (l : List String), l.Nodup →
    ∀ (i : Nat) (hi : i < l.length) (s : Nat),
    List.findIdx? (fun c => c == l.get ⟨i, hi⟩) l s = some (s + i)
  | [], _, i, hi, _ => absurd hi (by simp)
  | a :: t, _, 0, hi, s => by
      rw [List.findIdx?_cons]
      simp
  | a :: t, hnd, i + 1, hi, s => by
      have hit : i < t.length := by simpa using hi
      have hanot : a ∉ t := (List.nodup_cons.mp hnd).1
      have hne : (a == (a :: t).get ⟨i + 1, hi⟩) = false := by
        rw [show (a :: t).get ⟨i + 1, hi⟩ = t.get ⟨i, hit⟩ from rfl]
        rw [beq_eq_false_iff_ne]
        intro heq
        exact hanot (heq ▸ t.get_mem i hit)
      rw [List.findIdx?_cons, hne]
      have hrec := findIdx?_nodup_self t (List.nodup_cons.mp hnd).2 i hit (s + 1)
      rw [show s + (i + 1) = (s + 1) + i by omega]
      simpa using hrec

theorem alignRow_self (df : DF) (hnd : df.cols.Nodup) (r : List Cell)
    (hlen : r.length = df.cols.length) : DF.alignRow df df.cols r = r := by
  apply List.ext_getElem
  · simp [DF.alignRow, hlen]
  · intro n h1 h2
    have hn : n < df.cols.length := by simpa [DF.alignRow] using h1
    have hf := findIdx?_nodup_self df.cols hnd n hn 0
    simp only [DF.alignRow, List.getElem_map]
    rw [show df.cols.get ⟨n, hn⟩ = df.cols[n] from rfl] at hf
    rw [hf]
    simp only [Nat.zero_add]
    exact List.getD_eq_getElem r Json.null h2

theorem concatIgnoreIndex_singleton (df : DF) (hnd : df.cols.Nodup)
    (hrect : ∀ r ∈ df.rows, r.length = df.cols.length) :
    concatIgnoreIndex [df] = ⟨df.cols, List.range df.rows.length, df.rows⟩ := by
  have hcols : concatCols [df] = df.cols := by
    simp [concatCols, List.filter_eq_self]
  have hrows : ∀ cs, cs = concatCols [df] →
      [df].flatMap (fun d => d.rows.map (d.alignRow cs)) = df.rows := by
    intro cs hcs
    subst hcs
    rw [hcols]
    simp only [List.flatMap_cons, List.flatMap_nil, List.append_nil]
    calc df.rows.map (df.alignRow df.cols)
        = df.rows.map id := List.map_congr_left
          (fun r hr => alignRow_self df hnd r (hrect r hr))
      _ = df.rows := List.map_id df.rows
  simp only [concatIgnoreIndex]
  rw [hrows _ rfl, hcols]

theorem convert_ok_shape (j : Json) (df : DF)
    (h : convert_JSON_to_DataFrame j = Except.ok df) :
    (∀ r ∈ df.rows, r.length = df.cols.length) ∧
    df.index = List.range df.rows.length := by
  match j with
  | Json.null => simp [convert_JSON_to_DataFrame] at h
  | Json.str _ => simp [convert_JSON_to_DataFrame] at h
  | Json.arr _ => simp [convert_JSON_to_DataFrame] at h
  | Json.obj kvs =>
    cases hd : lookupKV kvs "data" with
    | none => simp [convert_JSON_to_DataFrame, hd] at h
    | some d =>
      simp only [convert_JSON_to_DataFrame, hd] at h
      obtain rfl := Except.ok.inj h
      constructor
      · intro r hr
        simp only [jsonNormalize] at hr
        obtain ⟨rec, _, rfl⟩ := List.mem_map.mp hr
        simp [jsonNormalize]
      · simp [jsonNormalize]

theorem dropAllNullCols_shape (df : DF) :
    (∀ r ∈ (DF.dropAllNullCols df).rows, r.length = (DF.dropAllNullCols df).cols.length) ∧
    (DF.dropAllNullCols df).index = df.index ∧
    (DF.dropAllNullCols df).rows.length = df.rows.length := by
  refine ⟨?_, rfl, by simp [DF.dropAllNullCols]⟩
  intro r hr
  simp only [DF.dropAllNullCols] at hr ⊢
  obtain ⟨r0, _, rfl⟩ := List.mem_map.mp hr
  simp

theorem concatIgnoreIndex_index (dfs : List DF) :
    (concatIgnoreIndex dfs).index = List.range (concatIgnoreIndex dfs).rows.length := rfl

/-- A raw page whose single record is the empty object: it flattens to a
frame with one row and zero columns (pandas-`empty`, yet not zero rows). -/
def pageNoCols : Json := Json.obj [("data", Json.arr [Json.obj []])]

/-- A raw page with a single one-field record. -/
def pageOneCol : Json := Json.obj [("data", Json.arr [Json.obj [("id", Json.str "a")]])]

/-- C3 (counterexample): `convert_list_JSON_to_DataFrame` does not discard
exactly the pages producing zero ROWS (the claim's wording); it discards
the pages whose flattened frame is pandas-`empty` — zero rows OR zero
columns.  A page flattening to one row and zero columns is dropped by the
code (result: one row), while the claim's pipeline keeps it (result: two
rows, the extra one all-null). -/
theorem convert_list_empty_page_discard :
    convert_list_JSON_to_DataFrame [pageNoCols, pageOneCol] =
      Except.ok ⟨["id"], [0], [[Json.str "a"]]⟩ ∧
    specConvertListByRows [pageNoCols, pageOneCol] =
      Except.ok ⟨["id"], [0, 1], [[Json.null], [Json.str "a"]]⟩ ∧
    convert_list_JSON_to_DataFrame [pageNoCols, pageOneCol] ≠
      specConvertListByRows [pageNoCols, pageOneCol] := by
  refine ⟨rfl, rfl, ?_⟩
  intro hcontra
  have h2 : (⟨["id"], [0], [[Json.str "a"]]⟩ : DF) =
      ⟨["id"], [0, 1], [[Json.null], [Json.str "a"]]⟩ := Except.ok.inj hcontra
  simp at h2

/-- C3 (amended): for pages each containing a `data` key (and, pipeline
sanity, pairwise-distinct column labels after flattening),
`convert_list_JSON_to_DataFrame` flattens each page independently,
discards the pages whose flattened frame is pandas-`empty` (zero rows OR
zero columns), drops each kept page's all-null columns before
concatenation, and returns the `ignore_index` concatenation of the
remaining per-page tables in page order — columns unioned in first-seen
order, fresh 0-based row index — with the zero-page input yielding the
empty table (zero rows, zero columns). -/
theorem convert_list_pipeline (listJSON : List Json)
    (hk : ∀ j ∈ listJSON, ∃ kvs, j = Json.obj kvs ∧ ∃ d, lookupKV kvs "data" = some d)
    (hnd : ∀ j ∈ listJSON, ∀ df, convert_JSON_to_DataFrame j = Except.ok df →
      (DF.dropAllNullCols df).cols.Nodup) :
    ∃ dfs, listJSON.mapM convert_JSON_to_DataFrame = Except.ok dfs ∧
      convert_list_JSON_to_DataFrame listJSON =
        Except.ok (concatIgnoreIndex
          ((dfs.filter (fun df => !df.isEmpty)).map DF.dropAllNullCols)) ∧
      (∀ out, convert_list_JSON_to_DataFrame listJSON = Except.ok out →
        out.index = List.range out.rows.length) ∧
      (listJSON = [] →
        convert_list_JSON_to_DataFrame listJSON = Except.ok DF.emptyDF) := by
  have hOk : ∀ j ∈ listJSON, ∃ b, convert_JSON_to_DataFrame j = Except.ok b := by
    intro j hj
    obtain ⟨kvs, rfl, d, hd⟩ := hk j hj
    refine ⟨{ jsonNormalize d with cols := (jsonNormalize d).cols.map stripAttr }, ?_⟩
    simp [convert_JSON_to_DataFrame, hd]
  obtain ⟨dfs, hdfs, hmem⟩ := mapM_ok_of_forall convert_JSON_to_DataFrame listJSON hOk
  have hall : (listJSON.all (fun j => match j with
      | Json.obj _ => true | _ => false)) = true := by
    rw [List.all_eq_true]
    intro j hj
    obtain ⟨kvs, rfl, _⟩ := hk j hj
    rfl
  have hcode : convert_list_JSON_to_DataFrame listJSON =
      (let dfs2 := (dfs.filter (fun df => !df.isEmpty)).map DF.dropAllNullCols
       if dfs2.length > 1 then Except.ok (concatIgnoreIndex dfs2)
       else if dfs2.length = 1 then Except.ok (dfs2.headD DF.emptyDF)
       else Except.ok DF.emptyDF) := by
    simp only [convert_list_JSON_to_DataFrame, hall, if_true, hdfs]
  have hmain : convert_list_JSON_to_DataFrame listJSON =
      Except.ok (concatIgnoreIndex
        ((dfs.filter (fun df => !df.isEmpty)).map DF.dropAllNullCols)) := by
    rw [hcode]
    cases hpl : ((dfs.filter (fun df => !df.isEmpty)).map DF.dropAllNullCols) with
    | nil => simp [hpl, concatIgnoreIndex, concatCols, DF.emptyDF]
    | cons d tl =>
      cases tl with
      | cons d2 tl2 => simp [hpl]
      | nil =>
        simp only [hpl, List.length_cons, List.length_nil]
        have hd_mem : d ∈ (dfs.filter (fun df => !df.isEmpty)).map DF.dropAllNullCols := by
          rw [hpl]; simp
        obtain ⟨df0, hdf0f, rfl⟩ := List.mem_map.mp hd_mem
        have hdf0 : df0 ∈ dfs := (List.mem_filter.mp hdf0f).1
        obtain ⟨j0, hj0, hconv⟩ := hmem df0 hdf0
        have hshape := convert_ok_shape j0 df0 hconv
        have hdshape := dropAllNullCols_shape df0
        have hnodup := hnd j0 hj0 df0 hconv
        have hrect : ∀ r ∈ (DF.dropAllNullCols df0).rows,
            r.length = (DF.dropAllNullCols df0).cols.length := hdshape.1
        have hsingle := concatIgnoreIndex_singleton (DF.dropAllNullCols df0) hnodup hrect
        have hidx : (DF.dropAllNullCols df0).index =
            List.range (DF.dropAllNullCols df0).rows.length := by
          rw [hdshape.2.1, hdshape.2.2, hshape.2]
        rw [hsingle]
        simp only [gt_iff_lt, Nat.lt_irrefl, if_false, if_pos rfl, List.headD_cons]
        cases hdf : DF.dropAllNullCols df0 with
        | mk c i r =>
          rw [hdf] at hidx
          simp only at hidx
          simp [hidx]
  refine ⟨dfs, hdfs, hmain, ?_, ?_⟩
  · intro out hout
    rw [hmain] at hout
    obtain rfl := Except.ok.inj hout
    exact (concatIgnoreIndex_index _).symm ▸ rfl
  · intro hnil
    subst hnil
    simp only [List.mapM_nil] at hdfs
    have : dfs = [] := (Except.ok.inj hdfs).symm
    subst this
    simpa using hmain

/-- C3 (amended, witness): the pipeline statement evaluated at a concrete
single-page list. -/
theorem convert_list_pipeline_witness :
    ∃ dfs, [pageOneCol].mapM convert_JSON_to_DataFrame = Except.ok dfs ∧
      convert_list_JSON_to_DataFrame [pageOneCol] =
        Except.ok (concatIgnoreIndex
          ((dfs.filter (fun df => !df.isEmpty)).map DF.dropAllNullCols)) ∧
      (∀ out, convert_list_JSON_to_DataFrame [pageOneCol] = Except.ok out →
        out.index = List.range out.rows.length) ∧
      ([pageOneCol] = [] →
        convert_list_JSON_to_DataFrame [pageOneCol] = Except.ok DF.emptyDF) :=
  convert_list_pipeline [pageOneCol]
    (by
      intro j hj
      simp only [List.mem_singleton] at hj
      subst hj
      exact ⟨[("data", Json.arr [Json.obj [("id", Json.str "a")]])], rfl,
        Json.arr [Json.obj [("id", Json.str "a")]], rfl⟩)
    (by
      intro j hj df hdf
      simp only [List.mem_singleton] at hj
      subst hj
      have hdf2 : (⟨["id"], [0], [[Json.str "a"]]⟩ : DF) = df := Except.ok.inj hdf
      rw [← hdf2]
      decide)

theorem chunks_flatten : ∀ (n c : Nat) (vs : List String), 0 < c → vs.length ≤ n * c →
    ((List.range n).map (fun i => (vs.drop (i * c)).take c)).flatten = vs
  | 0, c, vs, _, hle => by
      simp only [Nat.zero_mul, Nat.le_zero] at hle
      have hnil : vs = [] := List.eq_nil_of_length_eq_zero hle
      simp [hnil]
  | n + 1, c, vs, hc, hle => by
      rw [List.range_succ_eq_map]
      simp only [List.map_cons, List.map_map, List.flatten_cons, Nat.zero_mul,
        List.drop_zero]
      have hmap : (List.range n).map ((fun i => (vs.drop (i * c)).take c) ∘ Nat.succ) =
          (List.range n).map (fun i => ((vs.drop c).drop (i * c)).take c) := by
        apply List.map_congr_left
        intro i _
        simp only [Function.comp]
        rw [List.drop_drop]
        congr 2
        rw [Nat.succ_mul]
        omega
      have hexp : (n + 1) * c = n * c + c := by ring
      rw [hmap, chunks_flatten n c (vs.drop c) hc
        (by simp only [List.length_drop]; omega)]
      exact List.take_append_drop c vs

theorem ceil_div_bounds (L c : Nat) (hc : 0 < c) :
    L ≤ ((L + c - 1) / c) * c ∧ ((L + c - 1) / c) * c < L + c := by
  have hA : ((L + c - 1) / c) * c ≤ L + c - 1 := Nat.div_mul_le_self _ _
  have hB := Nat.div_add_mod (L + c - 1) c
  have hC : (L + c - 1) % c < c := Nat.mod_lt _ hc
  have hB2 : ((L + c - 1) / c) * c + (L + c - 1) % c = L + c - 1 := by
    rw [Nat.mul_comm]
    exact hB
  omega

theorem chunk_sizes (L c : Nat) (hc : 0 < c) (hL : 0 < L) (i : Nat)
    (hi : i < (L + c - 1) / c) :
    min c (L - i * c) ≤ c ∧ 0 < min c (L - i * c) ∧
      (i + 1 < (L + c - 1) / c → min c (L - i * c) = c) := by
  obtain ⟨h1, h2⟩ := ceil_div_bounds L c hc
  refine ⟨Nat.min_le_left _ _, ?_, ?_⟩
  · have : i * c + c ≤ ((L + c - 1) / c) * c := by
      have : i + 1 ≤ (L + c - 1) / c := hi
      calc i * c + c = (i + 1) * c := by ring
        _ ≤ ((L + c - 1) / c) * c := Nat.mul_le_mul_right c this
    omega
  · intro hi2
    have : (i + 1) * c ≤ ((L + c - 1) / c - 1) * c := by
      apply Nat.mul_le_mul_right
      omega
    have hlast : ((L + c - 1) / c - 1) * c < L := by
      have hq : 1 ≤ (L + c - 1) / c := by
        apply Nat.one_le_div_iff hc |>.mpr
        omega
      have : ((L + c - 1) / c - 1) * c + c = ((L + c - 1) / c) * c := by
        have := Nat.succ_pred_eq_of_pos hq
        calc ((L + c - 1) / c - 1) * c + c = ((L + c - 1) / c - 1 + 1) * c := by ring
          _ = ((L + c - 1) / c) * c := by rw [Nat.sub_add_cancel hq]
      omega
    have : (i + 1) * c < L := by omega
    have : i * c + c ≤ L := by
      calc i * c + c = (i + 1) * c := by ring
        _ ≤ L := by omega
    omega

theorem concatCols_foldl_const (cols : List String) :
    ∀ (dfs : List DF), (∀ d ∈ dfs, d.cols = cols) →
      List.foldl (fun acc df => acc ++ df.cols.filter (fun c => !acc.contains c)) cols dfs = cols
  | [], _ => rfl
  | d :: tl, h => by
      have hd := h d (by simp)
      have hstep : cols ++ (d.cols.filter (fun c => !cols.contains c)) = cols := by
        rw [hd]
        have hnil : cols.filter (fun c => !cols.contains c) = [] := by
          rw [List.filter_eq_nil_iff]
          intro c hc
          simpa using hc
        rw [hnil, List.append_nil]
      calc List.foldl _ cols (d :: tl)
          = List.foldl (fun acc df => acc ++ df.cols.filter (fun c => !acc.contains c))
            (cols ++ (d.cols.filter (fun c => !cols.contains c))) tl := rfl
        _ = cols := by rw [hstep]; exact concatCols_foldl_const cols tl (fun x hx => h x (by simp [hx]))

theorem concatCols_const (cols : List String) (d : DF) (tl : List DF)
    (h : ∀ x ∈ d :: tl, x.cols = cols) : concatCols (d :: tl) = cols := by
  have hd := h d (by simp)
  have hfirst : ([] : List String) ++ (d.cols.filter (fun c => !([] : List String).contains c)) =
      cols := by
    rw [hd]
    simp [List.filter_eq_self]
  calc concatCols (d :: tl)
      = List.foldl (fun acc df => acc ++ df.cols.filter (fun c => !acc.contains c))
        ([] ++ (d.cols.filter (fun c => !([] : List String).contains c))) tl := rfl
    _ = cols := by rw [hfirst]; exact concatCols_foldl_const cols tl (fun x hx => h x (by simp [hx]))

theorem concatIgnoreIndex_const_cols (cols : List String) (hnd : cols.Nodup)
    (d : DF) (tl : List DF) (hcols : ∀ x ∈ d :: tl, x.cols = cols)
    (hrect : ∀ x ∈ d :: tl, ∀ r ∈ x.rows, r.length = cols.length) :
    (concatIgnoreIndex (d :: tl)).rows = (d :: tl).flatMap (fun x => x.rows) ∧
    (concatIgnoreIndex (d :: tl)).cols = cols := by
  have hc : concatCols (d :: tl) = cols := concatCols_const cols d tl hcols
  constructor
  · show (d :: tl).flatMap (fun x => x.rows.map (x.alignRow (concatCols (d :: tl)))) = _
    rw [hc]
    simp only [List.flatMap_def]
    congr 1
    apply List.map_congr_left
    intro x hx
    have hxc := hcols x hx
    calc x.rows.map (x.alignRow cols)
        = x.rows.map id := by
          apply List.map_congr_left
          intro r hr
          rw [← hxc]
          exact alignRow_self x (hxc ▸ hnd) r ((hrect x hx r hr).trans (by rw [hxc]))
      _ = x.rows := List.map_id _
  · exact hc

/-- C1 (claim): over the spec-modelled remote collection (`in`-filter
semantics), for a filter value list of length L and chunk size C with
L > C > 0, `get_df` splits the values into ⌈L/C⌉ consecutive chunks in
original order (each of size C except a possibly shorter non-empty last
one), performs exactly one fetch-and-flatten per chunk (the returned call
count equals the chunk count), returns the row-wise concatenation of the
per-chunk tables in chunk order with a fresh 0-based index, and the
resulting rows are the same rows a single unchunked fetch over the whole
value list would produce; when the filter value is not a list or L ≤ C,
`get_df` delegates to a single fetch-and-flatten call. -/
theorem get_df_chunking (cols : List String) (db : List DbRow) (a op : String)
    (vs : List String) (C : Int) (hC : 0 < C) (hL : (vs.length : Int) > C)
    (hrect : ∀ r ∈ db, r.cells.length = cols.length) (hnd : cols.Nodup) :
    ∃ chunks,
      split_list vs C = Except.ok chunks ∧
      chunks.length = (vs.length + C.toNat - 1) / C.toNat ∧
      chunks.flatten = vs ∧
      (∀ i (hi : i < chunks.length), (chunks.get ⟨i, hi⟩).length ≤ C.toNat ∧
        0 < (chunks.get ⟨i, hi⟩).length ∧
        (i + 1 < chunks.length → (chunks.get ⟨i, hi⟩).length = C.toNat)) ∧
      (∃ out, get_df (modelFetchFlatten cols db) (some (a, op, FVal.list vs)) C =
          (chunks.length, Except.ok out) ∧
        out = concatIgnoreIndex (chunks.map (fun ch =>
          modelFetchFlatten cols db (some (a, op, FVal.list ch)))) ∧
        out.rows = chunks.flatMap (fun ch =>
          (db.filter (fun r => ch.contains r.key)).map (fun r => r.cells)) ∧
        (∀ x, x ∈ out.rows ↔
          x ∈ (modelFetchFlatten cols db (some (a, op, FVal.list vs))).rows) ∧
        out.index = List.range out.rows.length) ∧
      (∀ filters : Option Filt, (match filters with
          | some (_, _, FVal.list vs2) => (vs2.length : Int) ≤ C
          | _ => True) →
        get_df (modelFetchFlatten cols db) filters C =
          (1, Except.ok (modelFetchFlatten cols db filters))) := by
  have hc : 0 < C.toNat := by omega
  have hlen : C.toNat < vs.length := by omega
  have hL0 : 0 < vs.length := by omega
  have hsplit : split_list vs C = Except.ok
      ((List.range ((vs.length + C.toNat - 1) / C.toNat)).map
        (fun i => (vs.drop (i * C.toNat)).take C.toNat)) := by
    simp only [split_list, if_neg (by omega : ¬ C ≤ 0)]
  have hflat : ((List.range ((vs.length + C.toNat - 1) / C.toNat)).map
      (fun i => (vs.drop (i * C.toNat)).take C.toNat)).flatten = vs :=
    chunks_flatten _ _ vs hc (ceil_div_bounds vs.length C.toNat hc).1
  have hconst : ∀ x ∈ ((List.range ((vs.length + C.toNat - 1) / C.toNat)).map
      (fun i => (vs.drop (i * C.toNat)).take C.toNat)).map (fun ch =>
        modelFetchFlatten cols db (some (a, op, FVal.list ch))), x.cols = cols := by
    intro x hx
    obtain ⟨ch, _, rfl⟩ := List.mem_map.mp hx
    rfl
  have hrect2 : ∀ x ∈ ((List.range ((vs.length + C.toNat - 1) / C.toNat)).map
      (fun i => (vs.drop (i * C.toNat)).take C.toNat)).map (fun ch =>
        modelFetchFlatten cols db (some (a, op, FVal.list ch))),
      ∀ r ∈ x.rows, r.length = cols.length := by
    intro x hx r hr
    obtain ⟨ch, _, rfl⟩ := List.mem_map.mp hx
    simp only [modelFetchFlatten] at hr
    obtain ⟨rr, hrr, rfl⟩ := List.mem_map.mp hr
    exact hrect rr (List.mem_filter.mp hrr).1
  have hn1 : 0 < (vs.length + C.toNat - 1) / C.toNat := by
    have h1 := (Nat.one_le_div_iff hc).mpr (show C.toNat ≤ vs.length + C.toNat - 1 by omega)
    omega
  obtain ⟨d, tl, hdt⟩ : ∃ d tl, ((List.range ((vs.length + C.toNat - 1) / C.toNat)).map
      (fun i => (vs.drop (i * C.toNat)).take C.toNat)).map (fun ch =>
        modelFetchFlatten cols db (some (a, op, FVal.list ch))) = d :: tl := by
    cases hm : ((List.range ((vs.length + C.toNat - 1) / C.toNat)).map
        (fun i => (vs.drop (i * C.toNat)).take C.toNat)).map (fun ch =>
          modelFetchFlatten cols db (some (a, op, FVal.list ch))) with
    | nil =>
        have hlen0 := congrArg List.length hm
        simp at hlen0
        omega
    | cons d tl => exact ⟨d, tl, rfl⟩
  have hcc := concatIgnoreIndex_const_cols cols hnd d tl (hdt ▸ hconst) (hdt ▸ hrect2)
  have hrows : (concatIgnoreIndex (((List.range ((vs.length + C.toNat - 1) / C.toNat)).map
      (fun i => (vs.drop (i * C.toNat)).take C.toNat)).map (fun ch =>
        modelFetchFlatten cols db (some (a, op, FVal.list ch))))).rows =
      ((List.range ((vs.length + C.toNat - 1) / C.toNat)).map
        (fun i => (vs.drop (i * C.toNat)).take C.toNat)).flatMap (fun ch =>
          (db.filter (fun r => ch.contains r.key)).map (fun r => r.cells)) := by
    rw [hdt, hcc.1, ← hdt, List.flatMap_map]
    rfl
  have hmemb : ∀ x, x ∈ (concatIgnoreIndex (((List.range
        ((vs.length + C.toNat - 1) / C.toNat)).map
      (fun i => (vs.drop (i * C.toNat)).take C.toNat)).map (fun ch =>
        modelFetchFlatten cols db (some (a, op, FVal.list ch))))).rows ↔
      x ∈ (modelFetchFlatten cols db (some (a, op, FVal.list vs))).rows := by
    intro x
    rw [hrows]
    constructor
    · intro hx
      obtain ⟨ch, hch, hx2⟩ := List.mem_flatMap.mp hx
      obtain ⟨r, hrf, rfl⟩ := List.mem_map.mp hx2
      obtain ⟨hrdb, hkey⟩ := List.mem_filter.mp hrf
      show _ ∈ (db.filter (fun r => vs.contains r.key)).map (fun r => r.cells)
      apply List.mem_map.mpr
      refine ⟨r, List.mem_filter.mpr ⟨hrdb, ?_⟩, rfl⟩
      have hkv : r.key ∈ ch := List.elem_iff.mp hkey
      have hkvs : r.key ∈ vs := by
        rw [← hflat]
        exact List.mem_flatten.mpr ⟨ch, hch, hkv⟩
      exact List.elem_iff.mpr hkvs
    · intro hx
      have hx2 : x ∈ (db.filter (fun r => vs.contains r.key)).map (fun r => r.cells) := hx
      obtain ⟨r, hrf, rfl⟩ := List.mem_map.mp hx2
      obtain ⟨hrdb, hkey⟩ := List.mem_filter.mp hrf
      have hkv : r.key ∈ vs := List.elem_iff.mp hkey
      rw [← hflat] at hkv
      obtain ⟨ch, hch, hin⟩ := List.mem_flatten.mp hkv
      exact List.mem_flatMap.mpr ⟨ch, hch,
        List.mem_map.mpr ⟨r, List.mem_filter.mpr ⟨hrdb, List.elem_iff.mpr hin⟩, rfl⟩⟩
  have hget : get_df (modelFetchFlatten cols db) (some (a, op, FVal.list vs)) C =
      (((List.range ((vs.length + C.toNat - 1) / C.toNat)).map
        (fun i => (vs.drop (i * C.toNat)).take C.toNat)).length,
       Except.ok (concatIgnoreIndex (((List.range ((vs.length + C.toNat - 1) / C.toNat)).map
        (fun i => (vs.drop (i * C.toNat)).take C.toNat)).map (fun ch =>
          modelFetchFlatten cols db (some (a, op, FVal.list ch)))))) := by
    simp only [get_df]
    rw [if_pos hL, hsplit]
  refine ⟨(List.range ((vs.length + C.toNat - 1) / C.toNat)).map
    (fun i => (vs.drop (i * C.toNat)).take C.toNat),
    hsplit, by simp, hflat, ?_, ⟨_, hget, rfl, hrows, hmemb, rfl⟩, ?_⟩
  · intro i hi
    have hi2 : i < (vs.length + C.toNat - 1) / C.toNat := by simpa using hi
    have hget2 : ((List.range ((vs.length + C.toNat - 1) / C.toNat)).map
        (fun i => (vs.drop (i * C.toNat)).take C.toNat)).get ⟨i, hi⟩ =
        (vs.drop (i * C.toNat)).take C.toNat := by
      simp [List.get_eq_getElem, List.getElem_range]
    rw [hget2]
    have hlth : ((vs.drop (i * C.toNat)).take C.toNat).length =
        min C.toNat (vs.length - i * C.toNat) := by
      simp [List.length_take, List.length_drop]
    rw [hlth]
    have hcs := chunk_sizes vs.length C.toNat hc hL0 i hi2
    exact ⟨hcs.1, hcs.2.1, fun h3 => hcs.2.2 (by simpa using h3)⟩
  · intro filters hfil
    match filters with
    | none => rfl
    | some (a2, op2, FVal.s v) => rfl
    | some (a2, op2, FVal.list vs2) =>
      simp only [get_df]
      rw [if_neg (by omega : ¬ (vs2.length : Int) > C)]

/-- A two-row remote collection for the C1 witness. -/
def dbW : List DbRow := [⟨"a", [Json.str "1"]⟩, ⟨"b", [Json.str "2"]⟩]

/-- C1 (witness): the chunking statement evaluated at a three-value filter
list with chunk size 2 over a concrete two-row collection. -/
theorem get_df_chunking_witness :
    ∃ chunks,
      split_list ["a", "b", "c"] 2 = Except.ok chunks ∧
      chunks.length = (["a", "b", "c"].length + (2 : Int).toNat - 1) / (2 : Int).toNat ∧
      chunks.flatten = ["a", "b", "c"] ∧
      (∀ i (hi : i < chunks.length), (chunks.get ⟨i, hi⟩).length ≤ (2 : Int).toNat ∧
        0 < (chunks.get ⟨i, hi⟩).length ∧
        (i + 1 < chunks.length → (chunks.get ⟨i, hi⟩).length = (2 : Int).toNat)) ∧
      (∃ out, get_df (modelFetchFlatten ["id"] dbW)
          (some ("id", "in", FVal.list ["a", "b", "c"])) 2 =
          (chunks.length, Except.ok out) ∧
        out = concatIgnoreIndex (chunks.map (fun ch =>
          modelFetchFlatten ["id"] dbW (some ("id", "in", FVal.list ch)))) ∧
        out.rows = chunks.flatMap (fun ch =>
          (dbW.filter (fun r => ch.contains r.key)).map (fun r => r.cells)) ∧
        (∀ x, x ∈ out.rows ↔
          x ∈ (modelFetchFlatten ["id"] dbW
            (some ("id", "in", FVal.list ["a", "b", "c"]))).rows) ∧
        out.index = List.range out.rows.length) ∧
      (∀ filters : Option Filt, (match filters with
          | some (_, _, FVal.list vs2) => (vs2.length : Int) ≤ 2
          | _ => True) →
        get_df (modelFetchFlatten ["id"] dbW) filters 2 =
          (1, Except.ok (modelFetchFlatten ["id"] dbW filters))) :=
  get_df_chunking ["id"] dbW "id" "in" ["a", "b", "c"] 2
    (by decide) (by decide) (by decide) (by decide)

theorem resetIndex_fresh (df : DF) :
    (DF.resetIndex df).index = List.range (DF.resetIndex df).rows.length := rfl

theorem dedup_fold_subset :
    ∀ (l acc : List (Nat × List Cell)) (p : Nat × List Cell),
      p ∈ l.foldl (fun acc p =>
        if acc.any (fun q => q.2 == p.2) then acc else acc ++ [p]) acc →
      p ∈ acc ∨ p ∈ l
  | [], _, p, hp => Or.inl hp
  | x :: xs, acc, p, hp => by
      rcases dedup_fold_subset xs _ p hp with h | h
      · have h1 : p ∈ (if acc.any (fun q => q.2 == x.2) = true then acc else acc ++ [x]) := h
        by_cases hx : acc.any (fun q => q.2 == x.2) = true
        · rw [if_pos hx] at h1
          exact Or.inl h1
        · rw [if_neg hx] at h1
          rcases List.mem_append.mp h1 with h2 | h2
          · exact Or.inl h2
          · simp at h2
            subst h2
            exact Or.inr (by simp)
      · exact Or.inr (by simp [h])

theorem dedup_fold_nodup :
    ∀ (l acc : List (Nat × List Cell)), (acc.map (fun p => p.2)).Nodup →
      ((l.foldl (fun acc p =>
        if acc.any (fun q => q.2 == p.2) then acc else acc ++ [p]) acc).map
          (fun p => p.2)).Nodup
  | [], _, hacc => hacc
  | x :: xs, acc, hacc => by
      apply dedup_fold_nodup xs
      show ((if acc.any (fun q => q.2 == x.2) = true then acc else acc ++ [x]).map
        (fun p => p.2)).Nodup
      by_cases hx : acc.any (fun q => q.2 == x.2) = true
      · rw [if_pos hx]
        exact hacc
      · rw [if_neg hx]
        rw [List.map_append, List.nodup_append]
        refine ⟨hacc, by simp, ?_⟩
        intro y hy
        simp only [List.map_cons, List.map_nil, List.mem_singleton]
        intro hyx
        subst hyx
        obtain ⟨q, hq, hq2⟩ := List.mem_map.mp hy
        apply hx
        rw [List.any_eq_true]
        exact ⟨q, hq, beq_iff_eq.mpr hq2⟩

theorem dropDups_rows_subset (df : DF) : ∀ r ∈ df.dropDups.rows, r ∈ df.rows := by
  intro r hr
  simp only [DF.dropDups] at hr
  obtain ⟨p, hp, rfl⟩ := List.mem_map.mp hr
  rcases dedup_fold_subset _ _ p hp with h | h
  · simp at h
  · exact (List.of_mem_zip h).2

theorem dropDups_rows_nodup (df : DF) : df.dropDups.rows.Nodup := by
  simp only [DF.dropDups]
  exact dedup_fold_nodup _ [] (by simp)

theorem select_rect (df : DF) (names : List String) :
    ∀ r ∈ (df.select names).rows, r.length = names.length := by
  intro r hr
  simp only [DF.select] at hr
  obtain ⟨r0, _, rfl⟩ := List.mem_map.mp hr
  simp

theorem merge_mem (d1 d2 : DF) (k : String) (r : List Cell)
    (hr : r ∈ (DF.merge d1 d2 k).rows) :
    ∃ r1 ∈ d1.rows, ∃ r2 ∈ d2.rows,
      (r2.getD (d2.cols.findIdx (fun c => c == k)) Json.null =
        r1.getD (d1.cols.findIdx (fun c => c == k)) Json.null) ∧
      r = r1 ++ r2.eraseIdx (d2.cols.findIdx (fun c => c == k)) := by
  simp only [DF.merge] at hr
  obtain ⟨r1, hr1, hr2⟩ := List.mem_flatMap.mp hr
  obtain ⟨r2, hr2f, rfl⟩ := List.mem_map.mp hr2
  obtain ⟨hr2m, hkey⟩ := List.mem_filter.mp hr2f
  exact ⟨r1, hr1, r2, hr2m, eq_of_beq hkey, rfl⟩

theorem merge_rect (d1 d2 : DF) (k : String) (n1 n2 : Nat)
    (h1 : ∀ r ∈ d1.rows, r.length = n1) (h2 : ∀ r ∈ d2.rows, r.length = n2)
    (hi2 : d2.cols.findIdx (fun c => c == k) < n2) :
    ∀ r ∈ (DF.merge d1 d2 k).rows, r.length = n1 + (n2 - 1) := by
  intro r hr
  obtain ⟨r1, hr1, r2, hr2, _, rfl⟩ := merge_mem d1 d2 k r hr
  rw [List.length_append, h1 r1 hr1, List.length_eraseIdx]
  rw [h2 r2 hr2, if_pos hi2]

/-- C4 (claim): for a well-formed input mapping (the five required keys
bound, each table carrying its required columns, and — since pandas joins
match missing keys to missing keys — the contractors table's `id` column
null-free, as remote-assigned ids are), `consolidate_core_DataFrames`
succeeds, and in the resulting table every row's `contractor_id` (column
position 9) is non-null and occurs as an `id` of the input contractors
table, no two rows are identical on all columns, and the row index is a
contiguous 0-based sequence.  A contract row whose contractor foreign key
is null matches no contractor and so contributes zero result rows — it is
dropped silently by the final inner join, not an error (success needs no
hypothesis on the contracts table's `contractor` values). -/
theorem consolidate_core_integrity (dfs : List (String × DF)) (dProp dProj dCU dC dCtr : DF)
    (h1 : lookupDf dfs "properties" = some dProp)
    (h2 : lookupDf dfs "projects" = some dProj)
    (h3 : lookupDf dfs "contract_units" = some dCU)
    (h4 : lookupDf dfs "contracts" = some dC)
    (h5 : lookupDf dfs "contractors" = some dCtr)
    (hc1 : (["id", "name"].all (fun c => dProp.cols.contains c)) = true)
    (hc2 : (["id", "name", "relationships.property.data.id"].all
      (fun c => dProj.cols.contains c)) = true)
    (hc3 : (["id", "name", "relationships.project.data.id"].all
      (fun c => dCU.cols.contains c)) = true)
    (hc4 : (["id", "name", "contract_number", "contract_unit", "contractor"].all
      (fun c => dC.cols.contains c)) = true)
    (hc5 : (["id", "name"].all (fun c => dCtr.cols.contains c)) = true)
    (hctr : ∀ v ∈ dCtr.colCells "id", v ≠ Json.null) :
    ∃ df, consolidate_core_DataFrames dfs = Except.ok df ∧
      df.cols = ["property_id", "property_name", "project_id", "project_name",
        "contract_unit_id", "contract_unit_name", "contract_id", "contract_name",
        "contract_number", "contractor_id", "contractor_name"] ∧
      (∀ r ∈ df.rows, r.getD 9 Json.null ≠ Json.null ∧
        r.getD 9 Json.null ∈ dCtr.colCells "id") ∧
      df.rows.Nodup ∧
      df.index = List.range df.rows.length := by
  refine ⟨((((((dProp.select ["id", "name"]).renameCols
      [("id", "property_id"), ("name", "property_name")]).merge
      ((dProj.select ["id", "name", "relationships.property.data.id"]).renameCols
        [("id", "project_id"), ("name", "project_name"),
         ("relationships.property.data.id", "property_id")]) "property_id").merge
      ((dCU.select ["id", "name", "relationships.project.data.id"]).renameCols
        [("id", "contract_unit_id"), ("name", "contract_unit_name"),
         ("relationships.project.data.id", "project_id")]) "project_id").merge
      ((dC.select ["id", "name", "contract_number", "contract_unit", "contractor"]).renameCols
        [("id", "contract_id"), ("name", "contract_name"),
         ("contract_unit", "contract_unit_id"), ("contractor", "contractor_id")])
        "contract_unit_id").merge
      ((dCtr.select ["id", "name"]).renameCols
        [("id", "contractor_id"), ("name", "contractor_name")])
        "contractor_id").dropDups.resetIndex, ?_, ?_, ?_, ?_, ?_⟩
  · simp at hc1 hc2 hc3 hc4 hc5
    simp [consolidate_core_DataFrames, h1, h2, h3, h4, h5, hc1, hc2, hc3, hc4, hc5]
  · rfl
  · intro r hr
    have hr4 : r ∈ (DF.merge
        (((((dProp.select ["id", "name"]).renameCols
          [("id", "property_id"), ("name", "property_name")]).merge
          ((dProj.select ["id", "name", "relationships.property.data.id"]).renameCols
            [("id", "project_id"), ("name", "project_name"),
             ("relationships.property.data.id", "property_id")]) "property_id").merge
          ((dCU.select ["id", "name", "relationships.project.data.id"]).renameCols
            [("id", "contract_unit_id"), ("name", "contract_unit_name"),
             ("relationships.project.data.id", "project_id")]) "project_id").merge
          ((dC.select ["id", "name", "contract_number", "contract_unit", "contractor"]).renameCols
            [("id", "contract_id"), ("name", "contract_name"),
             ("contract_unit", "contract_unit_id"), ("contractor", "contractor_id")])
          "contract_unit_id")
        ((dCtr.select ["id", "name"]).renameCols
          [("id", "contractor_id"), ("name", "contractor_name")])
        "contractor_id").rows := dropDups_rows_subset _ r hr
    obtain ⟨r1, hr1, r2, hr2, hkey, rfl⟩ := merge_mem
      (((((dProp.select ["id", "name"]).renameCols
        [("id", "property_id"), ("name", "property_name")]).merge
        ((dProj.select ["id", "name", "relationships.property.data.id"]).renameCols
          [("id", "project_id"), ("name", "project_name"),
           ("relationships.property.data.id", "property_id")]) "property_id").merge
        ((dCU.select ["id", "name", "relationships.project.data.id"]).renameCols
          [("id", "contract_unit_id"), ("name", "contract_unit_name"),
           ("relationships.project.data.id", "project_id")]) "project_id").merge
        ((dC.select ["id", "name", "contract_number", "contract_unit", "contractor"]).renameCols
          [("id", "contract_id"), ("name", "contract_name"),
           ("contract_unit", "contract_unit_id"), ("contractor", "contractor_id")])
        "contract_unit_id")
      ((dCtr.select ["id", "name"]).renameCols
        [("id", "contractor_id"), ("name", "contractor_name")])
      "contractor_id" r hr4
    have hkey2 : r2.getD 0 Json.null = r1.getD 9 Json.null := hkey
    have hrectP : ∀ rr ∈ ((dProp.select ["id", "name"]).renameCols
        [("id", "property_id"), ("name", "property_name")]).rows, rr.length = 2 :=
      fun rr hrr => select_rect dProp ["id", "name"] rr hrr
    have hrectJ : ∀ rr ∈ ((dProj.select
        ["id", "name", "relationships.property.data.id"]).renameCols
        [("id", "project_id"), ("name", "project_name"),
         ("relationships.property.data.id", "property_id")]).rows, rr.length = 3 :=
      fun rr hrr => select_rect dProj _ rr hrr
    have hrectCU : ∀ rr ∈ ((dCU.select
        ["id", "name", "relationships.project.data.id"]).renameCols
        [("id", "contract_unit_id"), ("name", "contract_unit_name"),
         ("relationships.project.data.id", "project_id")]).rows, rr.length = 3 :=
      fun rr hrr => select_rect dCU _ rr hrr
    have hrectCt : ∀ rr ∈ ((dC.select
        ["id", "name", "contract_number", "contract_unit", "contractor"]).renameCols
        [("id", "contract_id"), ("name", "contract_name"),
         ("contract_unit", "contract_unit_id"), ("contractor", "contractor_id")]).rows,
        rr.length = 5 :=
      fun rr hrr => select_rect dC _ rr hrr
    have hrect1 := merge_rect _ _ "property_id" 2 3 hrectP hrectJ
      (by simp only [DF.select, DF.renameCols]; decide)
    have hrect2 := merge_rect _ _ "project_id" (2 + (3 - 1)) 3 hrect1 hrectCU
      (by simp only [DF.select, DF.renameCols]; decide)
    have hrect3 := merge_rect _ _ "contract_unit_id" (2 + (3 - 1) + (3 - 1)) 5 hrect2 hrectCt
      (by simp only [DF.select, DF.renameCols]; decide)
    have hlen1 : r1.length = 10 := by
      have := hrect3 r1 hr1
      omega
    have hgd : (r1 ++ r2.eraseIdx 0).getD 9 Json.null = r1.getD 9 Json.null :=
      List.getD_append _ _ _ _ (by omega)
    refine ?_
    show (r1 ++ r2.eraseIdx ((((dCtr.select ["id", "name"]).renameCols
        [("id", "contractor_id"), ("name", "contractor_name")]).cols).findIdx
          (fun c => c == "contractor_id"))).getD 9 Json.null ≠ Json.null ∧
      (r1 ++ r2.eraseIdx ((((dCtr.select ["id", "name"]).renameCols
        [("id", "contractor_id"), ("name", "contractor_name")]).cols).findIdx
          (fun c => c == "contractor_id"))).getD 9 Json.null ∈ dCtr.colCells "id"
    have hgd2 : (r1 ++ r2.eraseIdx ((((dCtr.select ["id", "name"]).renameCols
        [("id", "contractor_id"), ("name", "contractor_name")]).cols).findIdx
          (fun c => c == "contractor_id"))).getD 9 Json.null = r1.getD 9 Json.null := hgd
    rw [hgd2, ← hkey2]
    have hr2sel : r2 ∈ (dCtr.select ["id", "name"]).rows := hr2
    simp only [DF.select] at hr2sel
    obtain ⟨row, hrow, rfl⟩ := List.mem_map.mp hr2sel
    have hval : (["id", "name"].map (fun c =>
        row.getD (dCtr.cols.findIdx (fun c2 => c2 == c)) Json.null)).getD 0 Json.null =
        row.getD (dCtr.cols.findIdx (fun c2 => c2 == "id")) Json.null := rfl
    rw [hval]
    have hmem : row.getD (dCtr.cols.findIdx (fun c2 => c2 == "id")) Json.null ∈
        dCtr.colCells "id" := by
      simp only [DF.colCells]
      exact List.mem_map.mpr ⟨row, hrow, rfl⟩
    exact ⟨hctr _ hmem, hmem⟩
  · exact dropDups_rows_nodup _
  · exact resetIndex_fresh _

/-- Concrete single-row input tables for the C4 witness. -/
def dPropW : DF := ⟨["id", "name"], [0], [[Json.str "p1", Json.str "Prop1"]]⟩

/-- Projects table of the C4 witness. -/
def dProjW : DF := ⟨["id", "name", "relationships.property.data.id"], [0],
  [[Json.str "j1", Json.str "Proj1", Json.str "p1"]]⟩

/-- Contract units table of the C4 witness. -/
def dCUW : DF := ⟨["id", "name", "relationships.project.data.id"], [0],
  [[Json.str "cu1", Json.str "CU1", Json.str "j1"]]⟩

/-- Contracts table of the C4 witness. -/
def dCW : DF := ⟨["id", "name", "contract_number", "contract_unit", "contractor"], [0],
  [[Json.str "c1", Json.str "C1", Json.str "N1", Json.str "cu1", Json.str "t1"]]⟩

/-- Contractors table of the C4 witness. -/
def dCtrW : DF := ⟨["id", "name"], [0], [[Json.str "t1", Json.str "T1"]]⟩

/-- The C4 witness input dictionary. -/
def dfsW4 : List (String × DF) :=
  [("properties", dPropW), ("projects", dProjW), ("contract_units", dCUW),
   ("contracts", dCW), ("contractors", dCtrW)]

/-- C4 (witness): the integrity statement evaluated on a concrete
well-formed five-table input. -/
theorem consolidate_core_integrity_witness :
    ∃ df, consolidate_core_DataFrames dfsW4 = Except.ok df ∧
      df.cols = ["property_id", "property_name", "project_id", "project_name",
        "contract_unit_id", "contract_unit_name", "contract_id", "contract_name",
        "contract_number", "contractor_id", "contractor_name"] ∧
      (∀ r ∈ df.rows, r.getD 9 Json.null ≠ Json.null ∧
        r.getD 9 Json.null ∈ dCtrW.colCells "id") ∧
      df.rows.Nodup ∧
      df.index = List.range df.rows.length :=
  consolidate_core_integrity dfsW4 dPropW dProjW dCUW dCW dCtrW
    rfl rfl rfl rfl rfl (by decide) (by decide) (by decide) (by decide) (by decide)
    (by decide)

/-- C9 (claim): each consolidation operation, replayed on the object heap
exactly as written (defensive `.copy()` first, only non-in-place pandas
calls), leaves every pre-existing DataFrame object — in particular every
input — unchanged (same columns, same values, same index), and any table
it returns is a newly allocated object (its reference is outside the
pre-existing heap), never a mutated input. -/
theorem consolidations_leave_inputs_unchanged (h : Heap) (dfs : List (String × Nat))
    (rCore rInv rCO r : Nat) (hr : r < h.cells.length) :
    ((consolidate_core_heap h dfs).1.read r = h.read r ∧
      ∀ i, (consolidate_core_heap h dfs).2 = Except.ok i → h.cells.length ≤ i) ∧
    ((consolidate_invoices_heap h rCore rInv).1.read r = h.read r ∧
      ∀ i, (consolidate_invoices_heap h rCore rInv).2 = Except.ok i → h.cells.length ≤ i) ∧
    ((consolidate_change_orders_heap h rCore rCO).1.read r = h.read r ∧
      ∀ i, (consolidate_change_orders_heap h rCore rCO).2 = Except.ok i →
        h.cells.length ≤ i) :=
  ⟨consolidate_core_heap_frame h dfs r hr,
   consolidate_invoices_heap_frame h rCore rInv r hr,
   consolidate_change_orders_heap_frame h rCore rCO r hr⟩

/-- A one-object heap for the C9 witness. -/
def heapW : Heap := ⟨[DF.emptyDF]⟩

/-- C9 (witness): the frame statement evaluated on a concrete one-object
heap. -/
theorem consolidations_leave_inputs_unchanged_witness :
    ((consolidate_core_heap heapW [("properties", 0)]).1.read 0 = heapW.read 0 ∧
      ∀ i, (consolidate_core_heap heapW [("properties", 0)]).2 = Except.ok i →
        heapW.cells.length ≤ i) ∧
    ((consolidate_invoices_heap heapW 0 0).1.read 0 = heapW.read 0 ∧
      ∀ i, (consolidate_invoices_heap heapW 0 0).2 = Except.ok i →
        heapW.cells.length ≤ i) ∧
    ((consolidate_change_orders_heap heapW 0 0).1.read 0 = heapW.read 0 ∧
      ∀ i, (consolidate_change_orders_heap heapW 0 0).2 = Except.ok i →
        heapW.cells.length ≤ i) :=
  consolidations_leave_inputs_unchanged heapW [("properties", 0)] 0 0 0 0 (by decide)

/-- A server page chain: each listed URL returns the paired page, every
page but the last names the NEXT listed URL in its `links.next` field, and
the last page carries no (or a null) next link. -/
def chainOk (server : String → Option Json) : List (String × Json) → Prop
  | [] => False
  | [(u, p)] => server u = some p ∧ linksNextE p = Except.ok none
  | (u, p) :: (u', p') :: rest =>
      server u = some p ∧ linksNextE p = Except.ok (some u') ∧
      chainOk server ((u', p') :: rest)

/-- C2 (claim): for a chain of N pages whose first N-1 responses carry a
present, non-null `links.next` URL and whose N-th does not, `get_json`
returns exactly the N raw pages in original order (first page first), and
the requested URLs are the filtered start URL followed by exactly the
next-link URLs — each follow-up request goes to the next-link URL
verbatim, with no filter appended. -/
theorem get_json_follows_chain (server : String → Option Json)
    (chain : List (String × Json)) (url : String) (filters : Option Filt) (fuel : Nat)
    (hchain : chainOk server chain)
    (hhead : chain.head?.map Prod.fst = some (applyFilter url filters))
    (hfuel : chain.length ≤ fuel) :
    get_json server fuel url filters =
      Except.ok (chain.map Prod.snd, chain.map Prod.fst) := by
  induction chain generalizing url filters fuel with
  | nil => exact absurd hchain (by simp [chainOk])
  | cons hd tl ih =>
    obtain ⟨u, p⟩ := hd
    have hu : applyFilter url filters = u := by
      simp only [List.head?, Option.map_some] at hhead
      exact (Option.some.inj hhead).symm
    cases fuel with
    | zero => simp at hfuel
    | succ f =>
      cases tl with
      | nil =>
        obtain ⟨hs, hn⟩ := hchain
        simp [get_json, hu, hs, hn]
      | cons hd' tl' =>
        obtain ⟨u', p'⟩ := hd'
        obtain ⟨hs, hlink, hrest⟩ := hchain
        have hlen : ((u', p') :: tl').length ≤ f := by
          simp only [List.length_cons] at hfuel ⊢
          omega
        have hrec := ih u' none f hrest (by simp [applyFilter]) hlen
        simp [get_json, hu, hs, hlink, hrec]

/-- The two concrete pages of the C2 witness chain. -/
def pageA : Json :=
  Json.obj [("links", Json.obj [("next", Json.str "urlB")]), ("data", Json.arr [])]

/-- Second witness page: no `links` key, hence no next page. -/
def pageB : Json := Json.obj [("data", Json.arr [])]

/-- The C2 witness server: two pages chained by one next link. -/
def chainServer : String → Option Json := fun u =>
  if u = "urlA?filter[id.in]=x" then some pageA
  else if u = "urlB" then some pageB
  else none

/-- C2 (witness): the chain theorem evaluated on a concrete two-page
chain reached through a filtered start URL. -/
theorem get_json_follows_chain_witness :
    get_json chainServer 2 "urlA" (some ("id", "in", FVal.s "x")) =
      Except.ok ([pageA, pageB], ["urlA?filter[id.in]=x", "urlB"]) := by
  have h := get_json_follows_chain chainServer
    [("urlA?filter[id.in]=x", pageA), ("urlB", pageB)]
    "urlA" (some ("id", "in", FVal.s "x")) 2
    (by exact ⟨by decide, by rfl, by decide, by rfl⟩)
    (by decide) (by decide)
  simpa using h

/-- Substring test: does `pat` occur in `s`? -/
def containsStr (s pat : String) : Bool :=
  hasSubChars s.data pat.data

/-- A C6 counterexample input: all five required keys present, but the
properties table lacks the required `name` column. -/
def dfsMissingNameCol : List (String × DF) :=
  [("properties", ⟨["id"], [], []⟩), ("projects", ⟨[], [], []⟩),
   ("contract_units", ⟨[], [], []⟩), ("contracts", ⟨[], [], []⟩),
   ("contractors", ⟨[], [], []⟩)]

/-- C6 (counterexample): when the properties table lacks its required
`name` column, `consolidate_core_DataFrames` raises a `KeyError` whose
message names only the offending TABLE ("Required columns missing in
'properties' DataFrame") — the specific missing column `name` does not
occur in the message, contradicting "naming ... the specific missing
column". -/
theorem consolidate_core_column_error_names_no_column :
    consolidate_core_DataFrames dfsMissingNameCol =
      Except.error (Err.keyError "Required columns missing in 'properties' DataFrame") ∧
    containsStr "Required columns missing in 'properties' DataFrame" "name" = false := by
  exact ⟨by rfl, by rfl⟩

/-- C6 (amended): consolidation fails with a `KeyError` (the spec's
`SchemaError`) on a missing required key or column; the message names the
specific missing key for a missing dictionary key (the first missing one
in check order), names the specific missing columns for
`consolidate_invoices_DataFrame` / `consolidate_change_orders_DataFrame`,
but for `consolidate_core_DataFrames` column failures it names only the
table whose required columns are missing, not the individual column. -/
theorem consolidation_missing_key_column_errors :
    (∀ dfs, lookupDf dfs "properties" = none →
      consolidate_core_DataFrames dfs =
        Except.error (Err.keyError "'properties' key not found in the input dictionary")) ∧
    (∀ dfs d1, lookupDf dfs "properties" = some d1 → lookupDf dfs "projects" = none →
      consolidate_core_DataFrames dfs =
        Except.error (Err.keyError "'projects' key not found in the input dictionary")) ∧
    (∀ dfs d1 d2, lookupDf dfs "properties" = some d1 → lookupDf dfs "projects" = some d2 →
      lookupDf dfs "contract_units" = none →
      consolidate_core_DataFrames dfs =
        Except.error (Err.keyError "'contract_units' key not found in the input dictionary")) ∧
    (∀ dfs d1 d2 d3, lookupDf dfs "properties" = some d1 → lookupDf dfs "projects" = some d2 →
      lookupDf dfs "contract_units" = some d3 → lookupDf dfs "contracts" = none →
      consolidate_core_DataFrames dfs =
        Except.error (Err.keyError "'contracts' key not found in the input dictionary")) ∧
    (∀ dfs d1 d2 d3 d4, lookupDf dfs "properties" = some d1 → lookupDf dfs "projects" = some d2 →
      lookupDf dfs "contract_units" = some d3 → lookupDf dfs "contracts" = some d4 →
      lookupDf dfs "contractors" = none →
      consolidate_core_DataFrames dfs =
        Except.error (Err.keyError "'contractors' key not found in the input dictionary")) ∧
    (∀ dfs d1 d2 d3 d4 d5,
      lookupDf dfs "properties" = some d1 → lookupDf dfs "projects" = some d2 →
      lookupDf dfs "contract_units" = some d3 → lookupDf dfs "contracts" = some d4 →
      lookupDf dfs "contractors" = some d5 →
      (["id", "name"].all (fun c => d1.cols.contains c)) = false →
      consolidate_core_DataFrames dfs =
        Except.error (Err.keyError "Required columns missing in 'properties' DataFrame")) ∧
    (∀ dfs d1 d2 d3 d4 d5,
      lookupDf dfs "properties" = some d1 → lookupDf dfs "projects" = some d2 →
      lookupDf dfs "contract_units" = some d3 → lookupDf dfs "contracts" = some d4 →
      lookupDf dfs "contractors" = some d5 →
      (["id", "name"].all (fun c => d1.cols.contains c)) = true →
      (["id", "name", "relationships.property.data.id"].all
        (fun c => d2.cols.contains c)) = false →
      consolidate_core_DataFrames dfs =
        Except.error (Err.keyError "Required columns missing in 'projects' DataFrame")) ∧
    (∀ dfs d1 d2 d3 d4 d5,
      lookupDf dfs "properties" = some d1 → lookupDf dfs "projects" = some d2 →
      lookupDf dfs "contract_units" = some d3 → lookupDf dfs "contracts" = some d4 →
      lookupDf dfs "contractors" = some d5 →
      (["id", "name"].all (fun c => d1.cols.contains c)) = true →
      (["id", "name", "relationships.property.data.id"].all
        (fun c => d2.cols.contains c)) = true →
      (["id", "name", "relationships.project.data.id"].all
        (fun c => d3.cols.contains c)) = false →
      consolidate_core_DataFrames dfs =
        Except.error (Err.keyError "Required columns missing in 'contract_units' DataFrame")) ∧
    (∀ dfs d1 d2 d3 d4 d5,
      lookupDf dfs "properties" = some d1 → lookupDf dfs "projects" = some d2 →
      lookupDf dfs "contract_units" = some d3 → lookupDf dfs "contracts" = some d4 →
      lookupDf dfs "contractors" = some d5 →
      (["id", "name"].all (fun c => d1.cols.contains c)) = true →
      (["id", "name", "relationships.property.data.id"].all
        (fun c => d2.cols.contains c)) = true →
      (["id", "name", "relationships.project.data.id"].all
        (fun c => d3.cols.contains c)) = true →
      (["id", "name", "contract_number", "contract_unit", "contractor"].all
        (fun c => d4.cols.contains c)) = false →
      consolidate_core_DataFrames dfs =
        Except.error (Err.keyError "Required columns missing in 'contracts' DataFrame")) ∧
    (∀ dfs d1 d2 d3 d4 d5,
      lookupDf dfs "properties" = some d1 → lookupDf dfs "projects" = some d2 →
      lookupDf dfs "contract_units" = some d3 → lookupDf dfs "contracts" = some d4 →
      lookupDf dfs "contractors" = some d5 →
      (["id", "name"].all (fun c => d1.cols.contains c)) = true →
      (["id", "name", "relationships.property.data.id"].all
        (fun c => d2.cols.contains c)) = true →
      (["id", "name", "relationships.project.data.id"].all
        (fun c => d3.cols.contains c)) = true →
      (["id", "name", "contract_number", "contract_unit", "contractor"].all
        (fun c => d4.cols.contains c)) = true →
      (["id", "name"].all (fun c => d5.cols.contains c)) = false →
      consolidate_core_DataFrames dfs =
        Except.error (Err.keyError "Required columns missing in 'contractors' DataFrame")) ∧
    (∀ core inv,
      ((["id", "contract", "external_identifier"].all
        (fun c => inv.cols.contains c)) = false) →
      consolidate_invoices_DataFrame core inv =
        Except.error (Err.keyError ("Required columns missing in 'df_invoices' DataFrame: " ++
          pyStrList (["id", "contract", "external_identifier"].filter
            (fun c => !inv.cols.contains c))))) ∧
    (∀ core co,
      ((["id", "contract", "name", "identifier"].all
        (fun c => co.cols.contains c)) = false) →
      consolidate_change_orders_DataFrame core co =
        Except.error (Err.keyError ("Required columns missing in 'df_change_orders' DataFrame: " ++
          pyStrList (["id", "contract", "name", "identifier"].filter
            (fun c => !co.cols.contains c))))) := by
  refine ⟨?_, ?_, ?_, ?_, ?_, ?_, ?_, ?_, ?_, ?_, ?_, ?_⟩
  · intro dfs h1
    simp [consolidate_core_DataFrames, h1]
  · intro dfs d1 h1 h2
    simp [consolidate_core_DataFrames, h1, h2]
  · intro dfs d1 d2 h1 h2 h3
    simp [consolidate_core_DataFrames, h1, h2, h3]
  · intro dfs d1 d2 d3 h1 h2 h3 h4
    simp [consolidate_core_DataFrames, h1, h2, h3, h4]
  · intro dfs d1 d2 d3 d4 h1 h2 h3 h4 h5
    simp [consolidate_core_DataFrames, h1, h2, h3, h4, h5]
  · intro dfs d1 d2 d3 d4 d5 h1 h2 h3 h4 h5 hc1
    simp at hc1
    simp [consolidate_core_DataFrames, h1, h2, h3, h4, h5]
    intro hida hnamea
    exact absurd hnamea (hc1 hida)
  · intro dfs d1 d2 d3 d4 d5 h1 h2 h3 h4 h5 hc1 hc2
    simp at hc1 hc2
    simp [consolidate_core_DataFrames, h1, h2, h3, h4, h5, hc1]
    intro hida hnamea hrela
    exact absurd hrela (hc2 hida hnamea)
  · intro dfs d1 d2 d3 d4 d5 h1 h2 h3 h4 h5 hc1 hc2 hc3
    simp at hc1 hc2 hc3
    simp [consolidate_core_DataFrames, h1, h2, h3, h4, h5, hc1, hc2]
    intro hida hnamea hrela
    exact absurd hrela (hc3 hida hnamea)
  · intro dfs d1 d2 d3 d4 d5 h1 h2 h3 h4 h5 hc1 hc2 hc3 hc4
    simp at hc1 hc2 hc3 hc4
    simp [consolidate_core_DataFrames, h1, h2, h3, h4, h5, hc1, hc2, hc3]
    intro hida hnamea hcna hcua hctra
    exact absurd hctra (hc4 hida hnamea hcna hcua)
  · intro dfs d1 d2 d3 d4 d5 h1 h2 h3 h4 h5 hc1 hc2 hc3 hc4 hc5
    simp at hc1 hc2 hc3 hc4 hc5
    simp [consolidate_core_DataFrames, h1, h2, h3, h4, h5, hc1, hc2, hc3, hc4]
    intro hida hnamea
    exact absurd hnamea (hc5 hida)
  · intro core inv hc
    simp at hc
    simp [consolidate_invoices_DataFrame]
    exact hc
  · intro core co hc
    simp at hc
    simp [consolidate_change_orders_DataFrame]
    exact hc

/-- C6 (amended, witness): the amended statement evaluated at concrete
inputs — the empty dictionary (missing `properties` key) and an invoice
table with no columns (all three required invoice columns missing). -/
theorem consolidation_missing_key_column_errors_witness :
    consolidate_core_DataFrames [] =
      Except.error (Err.keyError "'properties' key not found in the input dictionary") ∧
    consolidate_invoices_DataFrame DF.emptyDF DF.emptyDF =
      Except.error (Err.keyError
        "Required columns missing in 'df_invoices' DataFrame: ['id', 'contract', 'external_identifier']") := by
  constructor
  · exact consolidation_missing_key_column_errors.1 [] rfl
  · have h := (consolidation_missing_key_column_errors.2.2.2.2.2.2.2.2.2.2.1)
      DF.emptyDF DF.emptyDF (by rfl)
    simpa using h

/-- C8 (counterexample): the claimed concrete vector is wrong.  Cleaning
keeps spaces (space is inside the kept class `[A-Za-z0-9_\-() ]`), so
`contractor_name = "ACME Corp."` cleans to `"ACME Corp"` and the derived
name is `"ACME Corp_123456_CONTRACT.pdf"`, not the claimed
`"ACME_Corp_123456_CONTRACT.pdf"` (which the source's own docstring also
asserts, contradicting both the cleaning rule and the code). -/
theorem nameContract_example_keeps_space :
    nameContract exampleRow (some "CONTRACT") = "ACME Corp_123456_CONTRACT.pdf" ∧
    nameContract exampleRow (some "CONTRACT") ≠ "ACME_Corp_123456_CONTRACT.pdf" := by
  constructor
  · rfl
  · decide

/-- C8 (amended): each derived document file name follows its claimed
format — `{contractor}_{number}_{type}.pdf` for contracts,
`{contractor}_{number}_{invoice}_{type}.pdf` for invoices,
`{contractor}_{number}_{type}_{identifier}.pdf` for change orders — with
every cleaned field equal to the input with the characters outside
`[A-Za-z0-9_\-() ]` stripped; the names are pure functions of the row and
document type (hence deterministic); and the documentation example row
yields `"ACME Corp_123456_CONTRACT.pdf"` (space kept by the cleaning
rule). -/
theorem document_name_formats :
    (∀ (row : String → String) (dt : String), nameContract row (some dt) =
      cleanStr (row "contractor_name") ++ "_" ++ cleanStr (row "contract_number") ++
      "_" ++ dt ++ ".pdf") ∧
    (∀ (row : String → String) (dt : String), nameInvoice row (some dt) =
      cleanStr (row "contractor_name") ++ "_" ++ cleanStr (row "contract_number") ++
      "_" ++ cleanStr (row "invoice_number") ++ "_" ++ dt ++ ".pdf") ∧
    (∀ (row : String → String) (dt : String), nameChangeOrder row (some dt) =
      cleanStr (row "contractor_name") ++ "_" ++ cleanStr (row "contract_number") ++
      "_" ++ dt ++ "_" ++ cleanStr (row "change_order_identifier") ++ ".pdf") ∧
    (∀ s : String, (cleanStr s).data = s.data.filter keepChar) ∧
    nameContract exampleRow (some "CONTRACT") = "ACME Corp_123456_CONTRACT.pdf" :=
  ⟨fun _ _ => rfl, fun _ _ => rfl, fun _ _ => rfl, fun _ => rfl, rfl⟩

end Alasco
